import Mathlib

/-!
# Verification of the display-mode table generator

This file gives a shallow embedding, in Lean 4, of the table-generation
pipeline in `display_mode_gen.py`: the three CEA-861 passes (detailed timing,
detailed sync, VIC/aspect) that build `DisplayMode` records keyed by VIC, and
the VESA DMT block parser.  The embedding follows the Python source line by
line:

* Python's arbitrary-precision integers are `Int`/`Nat`.
* Python's IEEE-754 float arithmetic is modelled by exact rational arithmetic
  (the `Frac` type below).  Every float in the program is obtained by parsing
  a short decimal literal and combining a handful of such values with
  `+ - * /`; the tolerances the program checks (`1e-3`, `1e-2`, `1`, `2`) are
  at least nine orders of magnitude larger than the accumulated double
  rounding error on these table values, so the exact model and the float
  computation decide every comparison in the program identically.
* An uncaught Python exception (failed `assert`, `KeyError`, `IndexError`,
  `ValueError`, `ZeroDivisionError`) aborts generation; all of these are
  modelled by `Option`, with `none` for "generation aborted".
* The tokenizer (`str.split()` on whitespace, with blank lines skipped) is
  applied up front: each table row is given to the embedding as its list of
  whitespace-separated fields, exactly as `line.split()` produces it.
-/

/-- `digitsToNat cs` is the number denoted by a string of decimal digits;
it is the value Python's `int()` returns on the digit strings appearing in
the tables. -/
def digitsToNat (cs : List Char) : Nat :=
  cs.foldl (fun n c => 10 * n + (c.toNat - 48)) 0

/-- Python `int(s)` on the (non-negative) integer fields of the tables. -/
def parseInt (s : String) : Int :=
  (digitsToNat s.data : Int)

/-- Split a character list at every occurrence of `sep`, like Python's
`str.split(sep)`: `n` separators yield `n + 1` (possibly empty) groups. -/
def splitOnChar (sep : Char) (cs : List Char) : List (List Char) :=
  match cs with
  | [] => [[]]
  | c :: rest =>
    let r := splitOnChar sep rest
    if c = sep then [] :: r
    else
      match r with
      | [] => [[c]]
      | g :: gs => (c :: g) :: gs

/-- Python's `str.strip(c)`: remove every leading and trailing copy of `c`. -/
def stripChar (c : Char) (cs : List Char) : List Char :=
  ((cs.dropWhile (· == c)).reverse.dropWhile (· == c)).reverse

/-- An exact rational: the model of a Python float in this development.
`den` is kept positive by construction, so order comparisons can be done by
cross-multiplication. -/
structure Frac where
  num : Int
  den : Nat
deriving Repr, DecidableEq

/-- Embed an integer. -/
def Frac.ofInt (n : Int) : Frac := ⟨n, 1⟩

/-- Exact model of float addition. -/
def Frac.add (a b : Frac) : Frac := ⟨a.num * b.den + b.num * a.den, a.den * b.den⟩

/-- Exact model of float subtraction. -/
def Frac.sub (a b : Frac) : Frac := ⟨a.num * b.den - b.num * a.den, a.den * b.den⟩

/-- Exact model of float multiplication. -/
def Frac.mul (a b : Frac) : Frac := ⟨a.num * b.num, a.den * b.den⟩

/-- Exact model of float division (the sign is moved into the numerator so
that `den` stays nonnegative).  Division by zero gives denominator `0`;
every place the Python program can divide by zero guards the corresponding
abort explicitly. -/
def Frac.div (a b : Frac) : Frac :=
  if b.num < 0 then ⟨-(a.num * b.den), a.den * b.num.natAbs⟩
  else ⟨a.num * b.den, a.den * b.num.natAbs⟩

/-- Exact model of Python `abs` on a float. -/
def Frac.abs (a : Frac) : Frac := ⟨|a.num|, a.den⟩

instance : Add Frac := ⟨Frac.add⟩
instance : Sub Frac := ⟨Frac.sub⟩
instance : Mul Frac := ⟨Frac.mul⟩
instance : Div Frac := ⟨Frac.div⟩

/-- Strict order on fractions, by cross-multiplication (`den` is positive for
every fraction the embedding builds). -/
def Frac.blt (a b : Frac) : Bool := a.num * b.den < b.num * a.den

/-- Non-strict order on fractions. -/
def Frac.ble (a b : Frac) : Bool := a.num * b.den ≤ b.num * a.den

/-- Equality test (as values, not representations). -/
def Frac.beq (a b : Frac) : Bool := a.num * b.den = b.num * a.den

/-- Python `float(s)` on a decimal literal such as `"74.250"` or `"30"`,
modelled exactly: `i.f` with `k` fraction digits becomes
`(i * 10^k + f) / 10^k`. -/
def parseDecimal (s : String) : Frac :=
  match splitOnChar (Char.ofNat 46) s.data with
  | [i, f] => ⟨(digitsToNat i * 10 ^ f.length + digitsToNat f : Nat), 10 ^ f.length⟩
  | [i] => ⟨(digitsToNat i : Nat), 1⟩
  | _ => ⟨0, 1⟩

/-- Python `int(x)` on a (nonnegative, in this program) float: truncation
toward zero, `Int.div` on numerator and denominator. -/
def fracTrunc (q : Frac) : Int := Int.tdiv q.num q.den

/-- Python `round(x)` on a float: round half to even. -/
def fracRound (q : Frac) : Int :=
  let fl := Int.fdiv q.num q.den
  let r : Int := q.num - fl * q.den
  if 2 * r < (q.den : Int) then fl
  else if (q.den : Int) < 2 * r then fl + 1
  else if fl % 2 = 0 then fl else fl + 1

/-- The record built for each mode, mirroring the Python dataclass
`DisplayMode` field for field (all fields default to zero). -/
structure DisplayMode where
  size : Int × Int := (0, 0)
  scan_size : Int × Int := (0, 0)
  sync_start : Int × Int := (0, 0)
  sync_end : Int × Int := (0, 0)
  sync_polarity : Int × Int := (0, 0)
  doubling : Int × Int := (0, 0)
  aspect : Int × Int := (0, 0)
  pixel_khz : Int := 0
  nominal_hz : Int := 0
deriving Repr, DecidableEq

/-- The `cta_vic_mode` dictionary: an association list keyed by VIC. -/
abbrev VicMap := List (Nat × DisplayMode)

/-- Dictionary lookup `cta_vic_mode[vic]`. -/
def vicLookup (m : VicMap) (k : Nat) : Option DisplayMode :=
  match m with
  | [] => none
  | (k2, v) :: rest => if k2 = k then some v else vicLookup rest k

/-- Dictionary store `cta_vic_mode[vic] = mode` (replace if present, else
append). -/
def vicInsert (m : VicMap) (k : Nat) (v : DisplayMode) : VicMap :=
  match m with
  | [] => [(k, v)]
  | (k2, v2) :: rest => if k2 = k then (k, v) :: rest else (k2, v2) :: vicInsert rest k v

/-- The comma-separated VIC list in field 0 of a Table-1/Table-2 row:
`fields[0].split(",")` with `int()` applied to each part. -/
def vicList (s : String) : List Nat :=
  (splitOnChar (Char.ofNat 44) s.data).map digitsToNat

/-- The scan-type dictionary `{"Prog": 0, "Int": -1}` of the Table-1 pass;
a missing key is a fatal `KeyError`. -/
def scanTypeVal (s : String) : Option Int :=
  if s = "Prog" then some 0 else if s = "Int" then some (-1) else none

/-- The sync-polarity dictionary `{"P": +1, "N": -1}` of the Table-2 pass. -/
def polarityVal (s : String) : Option Int :=
  if s = "P" then some 1 else if s = "N" then some (-1) else none

/-- `2 ** -mode.doubling[1]`: the interlace factor, `1` for progressive
(`doubling.v = 0`) and `2` for interlaced (`doubling.v = -1`). -/
def iDouble (dv : Int) : Int := 2 ^ (-dv).toNat

/-- The fields a Table-1 row assigns into its record (`mode.size`,
`mode.scan_size`, `mode.doubling`, `mode.pixel_khz`, `mode.nominal_hz`),
given the scan-type value `dv`; all other fields of the existing record `m`
are kept. -/
def table1Record (m : DisplayMode) (f : List String) (dv : Int) : DisplayMode :=
  { m with
    size := (parseInt (f.getD 1 ""), parseInt (f.getD 2 "")),
    scan_size := (parseInt (f.getD 4 ""), parseInt (f.getD 6 "")),
    doubling := (0, dv),
    pixel_khz := fracTrunc ((parseDecimal (f.getD 10 "")).mul (Frac.ofInt 1000)),
    nominal_hz := fracRound (parseDecimal (f.getD 9 "")) }

/-- The first two Table-1 assertions: blanking consistency,
`scan_size[0] == size[0] + int(fields[5])` and
`scan_size[1] == size[1] + float(fields[7]) * i_double`. -/
def table1BlankChecks (f : List String) (dv : Int) : Bool :=
  let r := table1Record {} f dv
  (r.scan_size.1 == r.size.1 + parseInt (f.getD 5 "")) &&
  (Frac.ofInt r.scan_size.2).beq
    ((Frac.ofInt r.size.2).add ((parseDecimal (f.getD 7 "")).mul (Frac.ofInt (iDouble dv))))

/-- The last two Table-1 assertions: the derived horizontal frequency matches
field 8 within `1e-3` and the derived vertical frequency matches field 9
(divided by the interlace factor) within `1e-2`.  A zero `scan_size`
component would be a fatal `ZeroDivisionError` in the source, hence the two
positivity conjuncts. -/
def table1FreqChecks (f : List String) (dv : Int) : Bool :=
  let r := table1Record {} f dv
  (0 < r.scan_size.1 && 0 < r.scan_size.2) &&
  (((Frac.ofInt r.pixel_khz).div (Frac.ofInt r.scan_size.1)).sub
      (parseDecimal (f.getD 8 ""))).abs.blt ⟨1, 1000⟩ &&
  ((((Frac.ofInt r.pixel_khz).mul (Frac.ofInt 1000)).div
        ((Frac.ofInt r.scan_size.1).mul (Frac.ofInt r.scan_size.2))).sub
      ((parseDecimal (f.getD 9 "")).div (Frac.ofInt (iDouble dv)))).abs.blt ⟨1, 100⟩

/-- Processing of one Table-1 row body for one VIC: overwrite the record's
timing fields and run the row's four assertions (`none` = abort). -/
def table1Apply (m : DisplayMode) (f : List String) : Option DisplayMode :=
  if 11 ≤ f.length then
    (scanTypeVal (f.getD 3 "")).bind (fun dv =>
      if table1BlankChecks f dv && table1FreqChecks f dv then some (table1Record m f dv)
      else none)
  else none

/-- One iteration of the inner `for vic in fields[0].split(",")` loop of the
Table-1 pass: fetch or create (`dict.setdefault`) the record for `vic` and
process the row body against it. -/
def table1Vic (f : List String) (acc : VicMap) (vic : Nat) : Option VicMap :=
  (table1Apply ((vicLookup acc vic).getD {}) f).map (vicInsert acc vic)

/-- One line of the Table-1 loop (`fields[0]` missing would be a fatal
`IndexError`). -/
def table1Line (mm : VicMap) (f : List String) : Option VicMap :=
  f[0]?.bind (fun f0 => (vicList f0).foldlM (table1Vic f) mm)

/-- The whole Table-1 pass (`for line in CTA_861_TABLE_1 ...`). -/
def cta861Pass1 (rows : List (List String)) : Option VicMap :=
  rows.foldlM table1Line []

/-- Abort point: `if b then some () else none`, used to model a failing
check, assertion or key lookup inside `do` blocks. -/
def ensure (b : Bool) : Option Unit :=
  if b then some () else none

/-- The fields a Table-2 row assigns into its record: `mode.sync_start`,
`mode.sync_end` (vertical components scaled by the record's interlace
factor) and `mode.sync_polarity`; all other fields are kept. -/
def table2Record (m : DisplayMode) (f : List String) (p5 p9 : Int) : DisplayMode :=
  let i := iDouble m.doubling.2
  let ss := (m.size.1 + parseInt (f.getD 2 ""), m.size.2 + parseInt (f.getD 6 "") * i)
  let se := (ss.1 + parseInt (f.getD 3 ""), ss.2 + parseInt (f.getD 7 "") * i)
  { m with sync_start := ss, sync_end := se, sync_polarity := (p5, p9) }

/-- The quantity the second Table-2 assertion constrains:
`scan_size[1] - (sync_end[1] + int(fields[8]) * i_double)`, evaluated on the
updated record `r`. -/
def table2VDiff (r : DisplayMode) (f : List String) : Int :=
  r.scan_size.2 - (r.sync_end.2 + parseInt (f.getD 8 "") * iDouble r.doubling.2)

/-- Processing of one Table-2 row body against one existing record: update
the sync fields, then assert `scan_size[0] == sync_end[0] + int(fields[4])`
and `0 <= scan_size[1] - (sync_end[1] + int(fields[8]) * i_double) <= 2`. -/
def table2Apply (m : DisplayMode) (f : List String) : Option DisplayMode :=
  if 10 ≤ f.length then
    (polarityVal (f.getD 5 "")).bind (fun p5 =>
      (polarityVal (f.getD 9 "")).bind (fun p9 =>
        let r := table2Record m f p5 p9
        if (r.scan_size.1 == r.sync_end.1 + parseInt (f.getD 4 "")) &&
           (0 ≤ table2VDiff r f && table2VDiff r f ≤ 2) then some r
        else none))
  else none

/-- One iteration of the inner VIC loop of the Table-2 pass: the record must
already exist (`cta_vic_mode[vic]`, a fatal `KeyError` otherwise) and is
updated in place. -/
def table2Vic (f : List String) (acc : VicMap) (vic : Nat) : Option VicMap := do
  let m ← vicLookup acc vic
  let r ← table2Apply m f
  pure (vicInsert acc vic r)

/-- One line of the Table-2 loop. -/
def table2Line (mm : VicMap) (f : List String) : Option VicMap :=
  f[0]?.bind (fun f0 => (vicList f0).foldlM (table2Vic f) mm)

/-- The whole Table-2 pass. -/
def cta861Pass2 (mm : VicMap) (rows : List (List String)) : Option VicMap :=
  rows.foldlM table2Line mm

/-- The name markers that make the Table-3 loop skip a row
(`fields[1] in ("Forbidden", "Reserved", "No")`). -/
def table3SkipName (s : String) : Bool :=
  s == "Forbidden" || s == "Reserved" || s == "No"

/-- Python `s.split(":")` unpacked into exactly two `int()` values; any
other number of parts is a fatal `ValueError`. -/
def colonPair (cs : List Char) : Option (Int × Int) :=
  match splitOnChar (Char.ofNat 58) cs with
  | [a, b] => some ((digitsToNat a : Int), (digitsToNat b : Int))
  | _ => none

/-- The Table-3 name parse, yielding `(name_x, name_h, name_v)`:
`name[:-1]` is split on `"x"` into exactly two parts; if the width part
carries a parenthesized alternate width, `name_h` is the text before `"("`
and `name_x` the text after it with `")"` stripped, otherwise
`name_x = name_h`. -/
def parseName (name : String) : Option (Int × Int × Int) :=
  match splitOnChar (Char.ofNat 120) name.data.dropLast with
  | [h0, v] =>
    if h0.contains (Char.ofNat 40) then
      match splitOnChar (Char.ofNat 40) h0 with
      | [h, x0] =>
        some ((digitsToNat (stripChar (Char.ofNat 41) x0) : Int),
              (digitsToNat h : Int), (digitsToNat v : Int))
      | _ => none
    else some ((digitsToNat h0 : Int), (digitsToNat h0 : Int), (digitsToNat v : Int))
  | _ => none

/-- The mutation applied when the name is pixel-doubled (`name_x != name_h`):
halve `size.h` (to `name_h`), `pixel_khz`, and the horizontal components of
`scan_size`, `sync_start`, `sync_end` (Python `//`, floor division), and set
`doubling.h = 1`. -/
def table3Halve (m : DisplayMode) (nh nv : Int) : DisplayMode :=
  { m with
    size := (nh, nv),
    doubling := (1, m.doubling.2),
    pixel_khz := Int.fdiv m.pixel_khz 2,
    scan_size := (Int.fdiv m.scan_size.1 2, m.scan_size.2),
    sync_start := (Int.fdiv m.sync_start.1 2, m.sync_start.2),
    sync_end := (Int.fdiv m.sync_end.1 2, m.sync_end.2) }

/-- `" ".join(fields[4:])`: the pixel-aspect field with any internal spaces
restored. -/
def pixField (f : List String) : List Char :=
  match f.drop 4 with
  | [] => []
  | x :: xs => xs.foldl (fun acc s => acc ++ Char.ofNat 32 :: s.data) x.data

/-- The gate on the pixel-aspect cross-check: the check runs exactly when
the joined field contains no space, no `"-"` and no `","`. -/
def pixChecked (f : List String) : Bool :=
  let pf := pixField f
  !(pf.contains (Char.ofNat 32)) && !(pf.contains (Char.ofNat 45)) &&
  !(pf.contains (Char.ofNat 44))

/-- The pixel-aspect cross-check itself:
`abs(pixel_h/pixel_v - (aspect.h/size.h)/(aspect.v/size.v)) < 1e-3` on the
(possibly halved) record.  A zero divisor anywhere would be a fatal
`ZeroDivisionError` in the source, hence the four guard conjuncts. -/
def table3AspectCheck (m : DisplayMode) (ph pv : Int) : Bool :=
  (pv ≠ 0 && m.size.1 ≠ 0 && m.size.2 ≠ 0 && m.aspect.2 ≠ 0) &&
  (((Frac.ofInt ph).div (Frac.ofInt pv)).sub
      (((Frac.ofInt m.aspect.1).div (Frac.ofInt m.size.1)).div
        ((Frac.ofInt m.aspect.2).div (Frac.ofInt m.size.2)))).abs.blt ⟨1, 1000⟩

/-- The `if name_x != name_h:` block of the Table-3 loop: when the name is
pixel-doubled, assert `name_x == name_h * 2` (fatal otherwise) and apply the
halving mutation; otherwise leave the record unchanged. -/
def table3DoubleStep (m : DisplayMode) (nx nh nv : Int) : Option DisplayMode :=
  if nx != nh then
    if nx == nh * 2 then some (table3Halve m nh nv) else none
  else some m

/-- Processing of one (non-skipped) Table-3 row body against one existing
record: store `aspect`, check the name's trailing `i`/`p` against the scan
type, check `(name_x, name_v)` against `size`, apply the pixel-doubling
correction when `name_x != name_h` (after asserting `name_x == name_h * 2`),
and finally run the gated pixel-aspect cross-check. -/
def table3Apply (m : DisplayMode) (f : List String) : Option DisplayMode := do
  let f3 ← f[3]?
  let asp ← colonPair f3.data
  let m1 := { m with aspect := asp }
  let name ← f[1]?
  let lastc ← name.data.getLast?
  ensure (lastc == (if m1.doubling.2 < 0 then Char.ofNat 105 else Char.ofNat 112))
  let trip ← parseName name
  ensure ((trip.1, trip.2.2) == m1.size)
  let m2 ← table3DoubleStep m1 trip.1 trip.2.1 trip.2.2
  if pixChecked f then do
    let pr ← colonPair (pixField f)
    ensure (table3AspectCheck m2 pr.1 pr.2)
    pure m2
  else pure m2

/-- One line of the Table-3 loop: skip reserved/forbidden rows, otherwise
the record for `int(fields[0])` must exist (fatal `KeyError` otherwise) and
is updated in place. -/
def table3Line (mm : VicMap) (f : List String) : Option VicMap :=
  f[1]?.bind (fun f1 =>
    if table3SkipName f1 then some mm
    else
      f[0]?.bind (fun f0 =>
        (vicLookup mm (digitsToNat f0.data)).bind (fun m =>
          (table3Apply m f).map (vicInsert mm (digitsToNat f0.data)))))

/-- The whole Table-3 pass. -/
def cta861Pass3 (mm : VicMap) (rows : List (List String)) : Option VicMap :=
  rows.foldlM table3Line mm

/-- The three CEA-861 passes in program order.  `none` means generation
aborted: the program exits on the raised exception before the emitter runs,
so no output table at all is produced. -/
def cta861Pipeline (t1 t2 t3 : List (List String)) : Option VicMap := do
  let m1 ← cta861Pass1 t1
  let m2 ← cta861Pass2 m1 t2
  cta861Pass3 m2 t3

/-- Lookup in the scraped key/value map of one VESA DMT block, phrased on the
association list (each block of the source table binds every key once, so
first match equals Python's dict lookup); a missing key is a fatal
`KeyError`. -/
def kvLookup (v : List (String × String)) (k : String) : Option String :=
  match v with
  | [] => none
  | (k2, s) :: rest => if k2 == k then some s else kvLookup rest k

/-- The VESA polarity dictionary `{"NEGATIVE": -1, "POSITIVE": +1}`. -/
def polarityWord (s : String) : Option Int :=
  if s == "POSITIVE" then some 1 else if s == "NEGATIVE" then some (-1) else none

/-- The VESA scan-type dictionary `{"NONINTERLACED": 0, "INTERLACED": -1}`. -/
def scanTypeWord (s : String) : Option Int :=
  if s == "NONINTERLACED" then some 0 else if s == "INTERLACED" then some (-1) else none

/-- Processing of one VESA DMT block.  The result is the `DisplayMode`
dataclass instance paired with the value of the extra `sync_doubling`
attribute: the source writes `mode.sync_doubling = (0, ...)`, which creates
a **new** attribute on the instance instead of assigning the dataclass
field `doubling`, so `doubling` keeps its `(0, 0)` default and that is what
the emitter later prints.

The two closing assertions are transcribed with the source's misplaced
parenthesis: `assert abs(float(v["Hor Addr Time"]) - mode.size[0] * pix_usec < 1)`
applies `abs` to the *boolean* comparison (`abs(True) = 1` is truthy,
`abs(False) = 0` is falsy), so the assertion tests the signed difference
`addr_time - size * period < 1`, not its absolute value. -/
def vesaApply (v : List (String × String)) : Option (DisplayMode × (Int × Int)) := do
  let vals ← ["Hor Pixels", "Ver Pixels", "Ver Frequency", "Pixel Clock",
      "Hor Total Time", "Ver Total Time", "Hor Sync Start", "Ver Sync Start",
      "Hor Sync Time", "Ver Sync Time", "Hor Sync Polarity",
      "Ver Sync Polarity", "Scan Type", "Hor Addr Time",
      "Ver Addr Time"].mapM (kvLookup v)
  match vals with
  | [hp, vp, vf, pc, htt, vtt, hss, vss, hst, vst, hsp, vsp, stw, hat, vat] => do
    let p1 ← polarityWord hsp
    let p2 ← polarityWord vsp
    let sd ← scanTypeWord stw
    let size : Int × Int := (parseInt hp, parseInt vp)
    let pixel_khz := fracTrunc ((parseDecimal pc).mul (Frac.ofInt 1000))
    ensure (pixel_khz ≠ 0)
    let pix_usec := (Frac.ofInt 1000).div (Frac.ofInt pixel_khz)
    let line_msec := (parseDecimal htt).mul ⟨1, 1000⟩
    ensure (line_msec.num ≠ 0)
    let scan := (fracRound ((parseDecimal htt).div pix_usec),
                 fracRound ((parseDecimal vtt).div line_msec))
    let ss := (fracRound ((parseDecimal hss).div pix_usec),
               fracRound ((parseDecimal vss).div line_msec))
    let se := (ss.1 + fracRound ((parseDecimal hst).div pix_usec),
               ss.2 + fracRound ((parseDecimal vst).div line_msec))
    ensure (((parseDecimal hat).sub ((Frac.ofInt size.1).mul pix_usec)).blt (Frac.ofInt 1))
    ensure (((parseDecimal vat).sub ((Frac.ofInt size.2).mul line_msec)).blt (Frac.ofInt 1))
    pure ({ size := size, scan_size := scan, sync_start := ss, sync_end := se,
            sync_polarity := (p1, p2), pixel_khz := pixel_khz,
            nominal_hz := fracRound (parseDecimal vf) }, (0, sd))
  | _ => none
/-- The rows of `CTA_861_TABLE_1` from display_mode_gen.py, tokenized like the
source: blank lines dropped, each remaining line split on runs of whitespace. -/
def ctaTable1Rows : List (List String) := [
  ["60,65", "1280", "720", "Prog", "3300", "2020", "750", "30", "18.000", "24.0003", "59.400"],
  ["61,66", "1280", "720", "Prog", "3960", "2680", "750", "30", "18.750", "25.000", "74.250"],
  ["62,67", "1280", "720", "Prog", "3300", "2020", "750", "30", "22.500", "30.0003", "74.250"],
  ["108,109", "1280", "720", "Prog", "2500", "1220", "750", "30", "36.000", "48.0003", "90.000"],
  ["32,72", "1920", "1080", "Prog", "2750", "830", "1125", "45", "27.000", "24.0003", "74.250"],
  ["33,73", "1920", "1080", "Prog", "2640", "720", "1125", "45", "28.125", "25.000", "74.250"],
  ["34,74", "1920", "1080", "Prog", "2200", "280", "1125", "45", "33.750", "30.0003", "74.250"],
  ["111,112", "1920", "1080", "Prog", "2750", "830", "1125", "45", "54.000", "48.0003", "148.500"],
  ["79", "1680", "720", "Prog", "3300", "1620", "750", "30", "18.000", "24.0003", "59.400"],
  ["80", "1680", "720", "Prog", "3168", "1488", "750", "30", "18.750", "25.000", "59.400"],
  ["81", "1680", "720", "Prog", "2640", "960", "750", "30", "22.500", "30.0003", "59.400"],
  ["110", "1680", "720", "Prog", "2750", "1070", "750", "30", "36.000", "48.0003", "99.000"],
  ["86", "2560", "1080", "Prog", "3750", "1190", "1100", "20", "26.400", "24.0003", "99.000"],
  ["87", "2560", "1080", "Prog", "3200", "640", "1125", "45", "28.125", "25.000", "90.000"],
  ["88", "2560", "1080", "Prog", "3520", "960", "1125", "45", "33.750", "30.0003", "118.800"],
  ["113", "2560", "1080", "Prog", "3750", "1190", "1100", "20", "52.800", "48.0003", "198.000"],
  ["93,103", "3840", "2160", "Prog", "5500", "1660", "2250", "90", "54.000", "24.0003", "297.000"],
  ["94,104", "3840", "2160", "Prog", "5280", "1440", "2250", "90", "56.250", "25.000", "297.000"],
  ["95,105", "3840", "2160", "Prog", "4400", "560", "2250", "90", "67.500", "30.0003", "297.000"],
  ["114,116", "3840", "2160", "Prog", "5500", "1660", "2250", "90", "108.000", "48.0003", "594.000"],
  ["98", "4096", "2160", "Prog", "5500", "1404", "2250", "90", "54.000", "24.0003", "297.000"],
  ["99", "4096", "2160", "Prog", "5280", "1184", "2250", "90", "56.250", "25.000", "297.000"],
  ["100", "4096", "2160", "Prog", "4400", "304", "2250", "90", "67.500", "30.0003", "297.000"],
  ["115", "4096", "2160", "Prog", "5500", "1404", "2250", "90", "108.000", "48.0003", "594.000"],
  ["121", "5120", "2160", "Prog", "7500", "2380", "2200", "40", "52.800", "24.0003", "396.000"],
  ["122", "5120", "2160", "Prog", "7200", "2080", "2200", "40", "55.000", "25.000", "396.000"],
  ["123", "5120", "2160", "Prog", "6000", "880", "2200", "40", "66.000", "30.0003", "396.000"],
  ["124", "5120", "2160", "Prog", "6250", "1130", "2475", "315", "118.800", "48.0003", "742.500"],
  ["194,202", "7680", "4320", "Prog", "11000", "3320", "4500", "180", "108.000", "24.0003", "1188.000"],
  ["195,203", "7680", "4320", "Prog", "10800", "3120", "4400", "80", "110.000", "25.000", "1188.000"],
  ["196,204", "7680", "4320", "Prog", "9000", "1320", "4400", "80", "132.000", "30.0003", "1188.000"],
  ["197,205", "7680", "4320", "Prog", "11000", "3320", "4500", "180", "216.000", "48.0003", "2376.000"],
  ["210", "10240", "4320", "Prog", "12500", "2260", "4950", "630", "118.800", "24.0003", "1485.000"],
  ["211", "10240", "4320", "Prog", "13500", "3260", "4400", "80", "110.000", "25.000", "1485.000"],
  ["212", "10240", "4320", "Prog", "11000", "760", "4500", "180", "135.000", "30.0003", "1485.000"],
  ["213", "10240", "4320", "Prog", "12500", "2260", "4950", "630", "237.600", "48.0003", "2970.000"],
  ["17,18", "720", "576", "Prog", "864", "144", "625", "49", "31.250", "50.000", "27.000"],
  ["19,68", "1280", "720", "Prog", "1980", "700", "750", "30", "37.500", "50.000", "74.250"],
  ["20", "1920", "1080", "Int", "2640", "720", "1125", "22.5", "28.125", "50.000", "74.250"],
  ["21,22", "1440", "576", "Int", "1728", "288", "625", "24.5", "15.625", "50.000", "27.000"],
  ["23,24", "1440", "288", "Prog", "1728", "288", "312", "24", "15.625", "50.080", "27.000"],
  ["23,24", "1440", "288", "Prog", "1728", "288", "313", "25", "15.625", "49.920", "27.000"],
  ["23,24", "1440", "288", "Prog", "1728", "288", "314", "26", "15.625", "49.761", "27.000"],
  ["25,26", "2880", "576", "Int", "3456", "576", "625", "24.5", "15.625", "50.000", "54.000"],
  ["27,28", "2880", "288", "Prog", "3456", "576", "312", "24", "15.625", "50.080", "54.000"],
  ["27,28", "2880", "288", "Prog", "3456", "576", "313", "25", "15.625", "49.920", "54.000"],
  ["27,28", "2880", "288", "Prog", "3456", "576", "314", "26", "15.625", "49.761", "54.000"],
  ["29,30", "1440", "576", "Prog", "1728", "288", "625", "49", "31.250", "50.000", "54.000"],
  ["31,75", "1920", "1080", "Prog", "2640", "720", "1125", "45", "56.250", "50.000", "148.500"],
  ["37,38", "2880", "576", "Prog", "3456", "576", "625", "49", "31.250", "50.000", "108.000"],
  ["39", "1920", "1080", "Int", "2304", "384", "1250", "85", "31.250", "50.000", "72.000"],
  ["82", "1680", "720", "Prog", "2200", "520", "750", "30", "37.500", "50.000", "82.500"],
  ["89", "2560", "1080", "Prog", "3300", "740", "1125", "45", "56.250", "50.000", "185.625"],
  ["96,106", "3840", "2160", "Prog", "5280", "1440", "2250", "90", "112.500", "50.000", "594.000"],
  ["101", "4096", "2160", "Prog", "5280", "1184", "2250", "90", "112.500", "50.000", "594.000"],
  ["125", "5120", "2160", "Prog", "6600", "1480", "2250", "90", "112.500", "50.000", "742.500"],
  ["198,206", "7680", "4320", "Prog", "10800", "3120", "4400", "80", "220.000", "50.000", "2376.000"],
  ["214", "10240", "4320", "Prog", "13500", "3260", "4400", "80", "220.000", "50.000", "2970.000"],
  ["1", "640", "480", "Prog", "800", "160", "525", "45", "31.469", "59.9403", "25.175"],
  ["2,3", "720", "480", "Prog", "858", "138", "525", "45", "31.469", "59.9403", "27.000"],
  ["4,69", "1280", "720", "Prog", "1650", "370", "750", "30", "45.000", "60.0003", "74.250"],
  ["5", "1920", "1080", "Int", "2200", "280", "1125", "22.5", "33.750", "60.0003", "74.250"],
  ["6,7", "1440", "480", "Int", "1716", "276", "525", "22.5", "15.734", "59.9403", "27.000"],
  ["8,9", "1440", "240", "Prog", "1716", "276", "262", "22", "15.734", "60.0543", "27.000"],
  ["8,9", "1440", "240", "Prog", "1716", "276", "263", "23", "15.734", "59.8263", "27.000"],
  ["10,11", "2880", "480", "Int", "3432", "552", "525", "22.5", "15.734", "59.9403", "54.000"],
  ["12,13", "2880", "240", "Prog", "3432", "552", "262", "22", "15.734", "60.0543", "54.000"],
  ["12,13", "2880", "240", "Prog", "3432", "552", "263", "23", "15.734", "59.8263", "54.000"],
  ["14,15", "1440", "480", "Prog", "1716", "276", "525", "45", "31.469", "59.9403", "54.000"],
  ["16,76", "1920", "1080", "Prog", "2200", "280", "1125", "45", "67.500", "60.0003", "148.500"],
  ["35,36", "2880", "480", "Prog", "3432", "552", "525", "45", "31.469", "59.9403", "108.000"],
  ["83", "1680", "720", "Prog", "2200", "520", "750", "30", "45.000", "60.0003", "99.000"],
  ["90", "2560", "1080", "Prog", "3000", "440", "1100", "20", "66.000", "60.0003", "198.000"],
  ["97,107", "3840", "2160", "Prog", "4400", "560", "2250", "90", "135.000", "60.0003", "594.000"],
  ["102", "4096", "2160", "Prog", "4400", "304", "2250", "90", "135.000", "60.0003", "594.000"],
  ["126", "5120", "2160", "Prog", "5500", "380", "2250", "90", "135.000", "60.0003", "742.500"],
  ["199,207", "7680", "4320", "Prog", "9000", "1320", "4400", "80", "264.000", "60.0003", "2376.000"],
  ["215", "10240", "4320", "Prog", "11000", "760", "4500", "180", "270.000", "60.0003", "2970.000"],
  ["40", "1920", "1080", "Int", "2640", "720", "1125", "22.5", "56.250", "100.00", "148.500"],
  ["41,70", "1280", "720", "Prog", "1980", "700", "750", "30", "75.000", "100.00", "148.500"],
  ["42,43", "720", "576", "Prog", "864", "144", "625", "49", "62.500", "100.00", "54.000"],
  ["44,45", "1440", "576", "Int", "1728", "288", "625", "24.5", "31.250", "100.00", "54.000"],
  ["64,77", "1920", "1080", "Prog", "2640", "720", "1125", "45", "112.500", "100.00", "297.000"],
  ["84", "1680", "720", "Prog", "2000", "320", "825", "105", "82.500", "100.00", "165.000"],
  ["91", "2560", "1080", "Prog", "2970", "410", "1250", "170", "125.000", "100.00", "371.250"],
  ["117,119", "3840", "2160", "Prog", "5280", "1440", "2250", "90", "225.000", "100.00", "1188.000"],
  ["127", "5120", "2160", "Prog", "6600", "1480", "2250", "90", "225.000", "100.00", "1485.000"],
  ["200,208", "7680", "4320", "Prog", "10560", "2880", "4500", "180", "450.000", "100.00", "4752.000"],
  ["216", "10240", "4320", "Prog", "13200", "2960", "4500", "180", "450.000", "100.00", "5940.000"],
  ["218", "4096", "2160", "Prog", "5280", "1184", "2250", "90", "225.000", "100.00", "1188.000"],
  ["46", "1920", "1080", "Int", "2200", "280", "1125", "22.5", "67.500", "120.003", "148.500"],
  ["47,71", "1280", "720", "Prog", "1650", "370", "750", "30", "90.000", "120.003", "148.500"],
  ["48,49", "720", "480", "Prog", "858", "138", "525", "45", "62.937", "119.883", "54.000"],
  ["50,51", "1440", "480", "Int", "1716", "276", "525", "22.5", "31.469", "119.883", "54.000"],
  ["63,78", "1920", "1080", "Prog", "2200", "280", "1125", "45", "135.000", "120.003", "297.000"],
  ["85", "1680", "720", "Prog", "2000", "320", "825", "105", "99.000", "120.003", "198.000"],
  ["92", "2560", "1080", "Prog", "3300", "740", "1250", "170", "150.000", "120.003", "495.000"],
  ["118,120", "3840", "2160", "Prog", "4400", "560", "2250", "90", "270.000", "120.003", "1188.000"],
  ["193", "5120", "2160", "Prog", "5500", "380", "2250", "90", "270.000", "120.003", "1485.000"],
  ["201,209", "7680", "4320", "Prog", "8800", "1120", "4500", "180", "540.000", "120.003", "4752.000"],
  ["217", "10240", "4320", "Prog", "11000", "760", "4500", "180", "540.000", "120.003", "5940.000"],
  ["219", "4096", "2160", "Prog", "4400", "304", "2250", "90", "270.000", "120.003", "1188.000"],
  ["52,53", "720", "576", "Prog", "864", "144", "625", "49", "125.000", "200.00", "108.00"],
  ["54,55", "1440", "576", "Int", "1728", "288", "625", "24.5", "62.500", "200.00", "108.00"],
  ["56,57", "720", "480", "Prog", "858", "138", "525", "45", "125.874", "239.763", "108.000"],
  ["58,59", "1440", "480", "Int", "1716", "276", "525", "22.5", "62.937", "239.763", "108.000"]
]

/-- The rows of `CTA_861_TABLE_2` from display_mode_gen.py, tokenized like the
source: blank lines dropped, each remaining line split on runs of whitespace. -/
def ctaTable2Rows : List (List String) := [
  ["60,65", "2", "1760", "40", "220", "P", "5", "5", "20", "P", "1", "SMPTE", "296M", "[61]", "1,2,25"],
  ["61,66", "2", "2420", "40", "220", "P", "5", "5", "20", "P", "1", "SMPTE", "296M", "[61]", "1,2"],
  ["62,67", "2", "1760", "40", "220", "P", "5", "5", "20", "P", "1", "SMPTE", "296M", "[61]", "1,2"],
  ["108,109", "2", "960", "40", "220", "P", "5", "5", "20", "P", "1", "SMPTE", "296M", "[61]", "1,2,25"],
  ["32,72", "2", "638", "44", "148", "P", "4", "5", "36", "P", "1", "SMPTE", "274M", "[2]", "14"],
  ["33,73", "2", "528", "44", "148", "P", "4", "5", "36", "P", "1", "SMPTE", "274M", "[2]", "14"],
  ["34,74", "2", "88", "44", "148", "P", "4", "5", "36", "P", "1", "SMPTE", "274M", "[2]", "14"],
  ["111,112", "2", "638", "44", "148", "P", "4", "5", "36", "P", "1", "SMPTE", "274M", "[2]", "14"],
  ["79", "2", "1360", "40", "220", "P", "5", "5", "20", "P", "1", "SMPTE", "296M", "[61]", "26"],
  ["80", "2", "1228", "40", "220", "P", "5", "5", "20", "P", "1", "SMPTE", "296M", "[61]", "26"],
  ["81", "2", "700", "40", "220", "P", "5", "5", "20", "P", "1", "SMPTE", "296M", "[61]", "26"],
  ["110", "2", "810", "40", "220", "P", "5", "5", "20", "P", "1", "SMPTE", "296M", "[61]", "26"],
  ["86", "2", "998", "44", "148", "P", "4", "5", "11", "P", "1", "SMPTE", "274M", "[2]", "27"],
  ["87", "2", "448", "44", "148", "P", "4", "5", "36", "P", "1", "SMPTE", "274M", "[2]", "27"],
  ["88", "2", "768", "44", "148", "P", "4", "5", "36", "P", "1", "SMPTE", "274M", "[2]", "27"],
  ["113", "2", "998", "44", "148", "P", "4", "5", "11", "P", "1", "SMPTE", "274M", "[2]", "27"],
  ["93,103", "2", "1276", "88", "296", "P", "8", "10", "72", "P", "1", "SMPTE", "274M", "[2]", "1,2,29"],
  ["94,104", "2", "1056", "88", "296", "P", "8", "10", "72", "P", "1", "SMPTE", "274M", "[2]", "1,2,29"],
  ["95,105", "2", "176", "88", "296", "P", "8", "10", "72", "P", "1", "SMPTE", "274M", "[2]", "1,2,29"],
  ["114,116", "2", "1276", "88", "296", "P", "8", "10", "72", "P", "1", "SMPTE", "274M", "[2]", "1,2,29"],
  ["98", "2", "1020", "88", "296", "P", "8", "10", "72", "P", "1", "SMPTE", "274M", "[2]", "1,2,30"],
  ["99", "2", "968", "88", "128", "P", "8", "10", "72", "P", "1", "SMPTE", "274M", "[2]", "1,2,30"],
  ["100", "2", "88", "88", "128", "P", "8", "10", "72", "P", "1", "SMPTE", "274M", "[2]", "1,2,30"],
  ["115", "2", "1020", "88", "296", "P", "8", "10", "72", "P", "1", "SMPTE", "274M", "[2]", "1,2,30"],
  ["121", "2", "1996", "88", "296", "P", "8", "10", "22", "P", "1", "SMPTE", "274M", "[2]", "31"],
  ["122", "2", "1696", "88", "296", "P", "8", "10", "22", "P", "1", "SMPTE", "274M", "[2]", "31"],
  ["123", "2", "664", "88", "128", "P", "8", "10", "22", "P", "1", "SMPTE", "274M", "[2]", "31"],
  ["124", "2", "746", "88", "296", "P", "8", "10", "297", "P", "1", "SMPTE", "274M", "[2]", "31"],
  ["194,202", "2", "2552", "176", "592", "P", "16", "20", "144", "P", "1", "SMPTE", "274M", "[2]"],
  ["195,203", "2", "2352", "176", "592", "P", "16", "20", "44", "P", "1", "SMPTE", "274M", "[2]"],
  ["196,204", "2", "552", "176", "592", "P", "16", "20", "44", "P", "1", "SMPTE", "274M", "[2]"],
  ["197,205", "2", "2552", "176", "592", "P", "16", "20", "144", "P", "1", "SMPTE", "274M", "[2]"],
  ["210", "2", "1492", "176", "592", "P", "16", "20", "594", "P", "1", "SMPTE", "274M", "[2]", "32"],
  ["211", "2", "2492", "176", "592", "P", "16", "20", "44", "P", "1", "SMPTE", "274M", "[2]", "32"],
  ["212", "2", "288", "176", "296", "P", "16", "20", "144", "P", "1", "SMPTE", "274M", "[2]", "32"],
  ["213", "2", "1492", "176", "592", "P", "16", "20", "594", "P", "1", "SMPTE", "274M", "[2]", "32"],
  ["17,18", "1", "12", "64", "68", "N", "5", "5", "39", "N", "1", "ITU-R", "BT.1358", "[77]"],
  ["19,68", "2", "440", "40", "220", "P", "5", "5", "20", "P", "1", "SMPTE", "296M", "[61]", "1,2"],
  ["20", "4", "528", "44", "148", "P", "2", "5", "15", "P", "1", "SMPTE", "274M", "[2]", "1,2"],
  ["21,22", "3", "24", "126", "138", "N", "2", "3", "19", "N", "1", "ITU-R", "BT.656", "[75]", "6,15"],
  ["23,24", "1", "24", "126", "138", "N", "2", "3", "19", "N", "1", "ITU-R", "BT.1358", "[77]", "7,14,15,19"],
  ["23,24", "1", "24", "126", "138", "N", "3", "3", "19", "N", "1", "ITU-R", "BT.1358", "[77]", "7,14,15,19"],
  ["23,24", "1", "24", "126", "138", "N", "4", "3", "19", "N", "1", "ITU-R", "BT.1358", "[77]", "7,14,15,19"],
  ["25,26", "3", "48", "252", "276", "N", "2", "3", "19", "N", "1", "ITU-R", "BT.656", "[75]", "8,13,14"],
  ["27,28", "1", "48", "252", "276", "N", "2", "3", "19", "N", "1", "ITU-R", "BT.656", "[75]", "7,8,12,13,19"],
  ["27,28", "1", "48", "252", "276", "N", "3", "3", "19", "N", "1", "ITU-R", "BT.656", "[75]", "7,8,12,13,19"],
  ["27,28", "1", "48", "252", "276", "N", "4", "3", "19", "N", "1", "ITU-R", "BT.656", "[75]", "7,8,12,13,19"],
  ["29,30", "1", "24", "128", "136", "N", "5", "5", "39", "N", "1", "ITU-R", "BT.1358", "[77]", "9,10,14"],
  ["31,75", "2", "528", "44", "148", "P", "4", "5", "36", "P", "1", "SMPTE", "274M", "[2]", "14"],
  ["37,38", "1", "48", "256", "272", "N", "5", "5", "39", "N", "1", "ITU-R", "BT.1358", "[77]", "9,11"],
  ["39", "5", "32", "168", "184", "P", "23", "5", "57", "N", "1", "AS", "4933.1-2005", "[88]", "5"],
  ["82", "2", "260", "40", "220", "P", "5", "5", "20", "P", "1", "SMPTE", "296M", "[61]", "1,2,26"],
  ["89", "2", "548", "44", "148", "P", "4", "5", "36", "P", "1", "SMPTE", "274M", "[2]", "14,27"],
  ["96,106", "2", "1056", "88", "296", "P", "8", "10", "72", "P", "1", "SMPTE", "274M", "[2]", "1,2,29"],
  ["101", "2", "968", "88", "128", "P", "8", "10", "72", "P", "1", "SMPTE", "274M", "[2]", "1,2,30"],
  ["125", "2", "1096", "88", "296", "P", "8", "10", "72", "P", "1", "SMPTE", "274M", "[2]", "31"],
  ["198,206", "2", "2352", "176", "592", "P", "16", "20", "44", "P", "1", "SMPTE", "274M", "[2]"],
  ["214", "2", "2492", "176", "592", "P", "16", "20", "44", "P", "1", "SMPTE", "274M", "[2]", "32"],
  ["1", "1", "16", "96", "48", "N", "10", "2", "33", "N", "1", "VESA", "DMT", "[86]", "3,4"],
  ["2,3", "1", "16", "62", "60", "N", "9", "6", "30", "N", "7", "CTA-770.2", "[30]", "2"],
  ["4,69", "2", "110", "40", "220", "P", "5", "5", "20", "P", "1", "CTA-770.3", "[31]", "1,2"],
  ["5", "4", "88", "44", "148", "P", "2", "5", "15", "P", "1", "CTA-770.3", "[31]", "1,2"],
  ["6,7", "3", "38", "124", "114", "N", "4", "3", "15", "N", "4", "CTA-770.2", "[30]", "2,15"],
  ["8,9", "1", "38", "124", "114", "N", "4", "3", "15", "N", "4", "CTA-770.2", "[30]", "7,14,15,19"],
  ["8,9", "1", "38", "124", "114", "N", "5", "3", "15", "N", "4", "CTA-770.2", "[30]", "7,14,15,19"],
  ["10,11", "3", "76", "248", "228", "N", "4", "3", "15", "N", "4", "CTA-770.2", "[30]", "8,13"],
  ["12,13", "1", "76", "248", "228", "N", "4", "3", "15", "N", "4", "CTA-770.2", "[30]", "7,8,13,19"],
  ["12,13", "1", "76", "248", "228", "N", "5", "3", "15", "N", "4", "CTA-770.2", "[30]", "7,8,13,19"],
  ["14,15", "1", "32", "124", "120", "N", "9", "6", "30", "N", "7", "CTA-770.2", "[30]", "9,10,13,14"],
  ["16,76", "2", "88", "44", "148", "P", "4", "5", "36", "P", "1", "SMPTE", "274M", "[2]", "14"],
  ["35,36", "1", "64", "248", "240", "N", "9", "6", "30", "N", "7", "CTA-770.2", "[30]", "9,11"],
  ["83", "2", "260", "40", "220", "P", "5", "5", "20", "P", "1", "CTA-770.3[31]", "1,2,26"],
  ["90", "2", "248", "44", "148", "P", "4", "5", "11", "P", "1", "SMPTE", "274M", "[2]", "14,27"],
  ["97,107", "2", "176", "88", "296", "P", "8", "10", "72", "P", "1", "SMPTE", "274M", "[2]", "1,2,29"],
  ["102", "2", "88", "88", "128", "P", "8", "10", "72", "P", "1", "SMPTE", "274M", "[2]", "1,2,30"],
  ["126", "2", "164", "88", "128", "P", "8", "10", "72", "P", "1", "SMPTE", "274M", "[2]", "31"],
  ["199,207", "2", "552", "176", "592", "P", "16", "20", "44", "P", "1", "SMPTE", "274M", "[2]"],
  ["215", "2", "288", "176", "296", "P", "16", "20", "144", "P", "1", "SMPTE", "274M", "[2]", "32"],
  ["40", "4", "528", "44", "148", "P", "2", "5", "15", "P", "1", "SMPTE", "274M", "[2]"],
  ["41,70", "2", "440", "40", "220", "P", "5", "5", "20", "P", "1", "SMPTE", "296M", "[61]"],
  ["42,43", "1", "12", "64", "68", "N", "5", "5", "39", "N", "1", "ITU-R", "BT.1358", "[77]"],
  ["44,45", "3", "24", "126", "138", "N", "2", "3", "19", "N", "1", "ITU-R", "BT.656", "[75]", "16"],
  ["64,77", "2", "528", "44", "148", "P", "4", "5", "36", "P", "1", "SMPTE", "274M", "[2]"],
  ["84", "2", "60", "40", "220", "P", "5", "5", "95", "P", "1", "SMPTE", "296M", "[61]", "26"],
  ["91", "2", "218", "44", "148", "P", "4", "5", "161", "P", "1", "SMPTE", "274M", "[2]", "27"],
  ["117,119", "2", "1056", "88", "296", "P", "8", "10", "72", "P", "1", "SMPTE", "274M", "[2]"],
  ["127", "2", "1096", "88", "296", "P", "8", "10", "72", "P", "1", "SMPTE", "274M", "[2]", "31"],
  ["200,208", "2", "2112", "176", "592", "P", "16", "20", "144", "P", "1", "SMPTE", "274M", "[2]"],
  ["216", "2", "2192", "176", "592", "P", "16", "20", "144", "P", "1", "SMPTE", "274M", "[2]", "32"],
  ["218", "2", "800", "88", "296", "P", "8", "10", "72", "P", "1", "SMPTE", "274M", "[2]"],
  ["46", "4", "88", "44", "148", "P", "2", "5", "15", "P", "1", "SMPTE", "274M", "[2]"],
  ["47,71", "2", "110", "40", "220", "P", "5", "5", "20", "P", "1", "SMPTE", "296M", "[61]"],
  ["48,49", "1", "16", "62", "60", "N", "9", "6", "30", "N", "7", "CTA-770.2", "[30]"],
  ["50,51", "3", "38", "124", "114", "N", "4", "3", "15", "N", "4", "CTA-770.2", "[30]", "16"],
  ["63,78", "2", "88", "44", "148", "P", "4", "5", "36", "P", "1", "SMPTE", "274M", "[2]"],
  ["85", "2", "60", "40", "220", "P", "5", "5", "95", "P", "1", "SMPTE", "296M", "[61]", "26"],
  ["92", "2", "548", "44", "148", "P", "4", "5", "161", "P", "1", "SMPTE", "274M", "[2]", "27"],
  ["118,120", "2", "176", "88", "296", "P", "8", "10", "72", "P", "1", "SMPTE", "274M", "[2]"],
  ["193", "2", "164", "88", "128", "P", "8", "10", "72", "P", "1", "SMPTE", "274M", "[2]", "31"],
  ["201,209", "2", "352", "176", "592", "P", "16", "20", "144", "P", "1", "SMPTE", "274M", "[2]"],
  ["217", "2", "288", "176", "296", "P", "16", "20", "144", "P", "1", "SMPTE", "274M", "[2]", "32"],
  ["219", "2", "88", "88", "128", "P", "8", "10", "72", "P", "1", "SMPTE", "274M", "[2]"],
  ["52,53", "1", "12", "64", "68", "N", "5", "5", "39", "N", "1", "ITU-R", "BT.1358", "[77]"],
  ["54,55", "3", "24", "126", "138", "N", "2", "3", "19", "N", "1", "ITU-R", "BT.656", "[75]", "16"],
  ["56,57", "1", "16", "62", "60", "N", "9", "6", "30", "N", "7", "CTA-770.2", "[30]"],
  ["58,59", "3", "38", "124", "114", "N", "4", "3", "15", "N", "4", "CTA-770.2", "[30]", "16"]
]

/-- The rows of `CTA_861_TABLE_3` from display_mode_gen.py, tokenized like the
source: blank lines dropped, each remaining line split on runs of whitespace. -/
def ctaTable3Rows : List (List String) := [
  ["1", "640x480p", "59.94Hz/60Hz", "4:3", "1:1"],
  ["2", "720x480p", "59.94Hz/60Hz", "4:3", "8:9"],
  ["3", "720x480p", "59.94Hz/60Hz", "16:9", "32:27"],
  ["4", "1280x720p", "59.94Hz/60Hz", "16:9", "1:1"],
  ["5", "1920x1080i", "59.94Hz/60Hz", "16:9", "1:1"],
  ["6", "720(1440)x480i", "59.94Hz/60Hz", "4:3", "8:9"],
  ["7", "720(1440)x480i", "59.94Hz/60Hz", "16:9", "32:27"],
  ["8", "720(1440)x240p", "59.94Hz/60Hz", "4:3", "4:9"],
  ["9", "720(1440)x240p", "59.94Hz/60Hz", "16:9", "16:27"],
  ["10", "2880x480i", "59.94Hz/60Hz", "4:3", "2:9", "–", "20:9"],
  ["11", "2880x480i", "59.94Hz/60Hz", "16:9", "8:27", "-80:27"],
  ["12", "2880x240p", "59.94Hz/60Hz", "4:3", "1:9", "–", "10:9"],
  ["13", "2880x240p", "59.94Hz/60Hz", "16:9", "4:27", "–", "40:27"],
  ["14", "1440x480p", "59.94Hz/60Hz", "4:3", "4:9", "or", "8:9"],
  ["15", "1440x480p", "59.94Hz/60Hz", "16:9", "16:27", "or", "32:27"],
  ["16", "1920x1080p", "59.94Hz/60Hz", "16:9", "1:1"],
  ["17", "720x576p", "50Hz", "4:3", "16:15"],
  ["18", "720x576p", "50Hz", "16:9", "64:45"],
  ["19", "1280x720p", "50Hz", "16:9", "1:1"],
  ["20", "1920x1080i", "50Hz", "16:9", "1:1"],
  ["21", "720(1440)x576i", "50Hz", "4:3", "16:15"],
  ["22", "720(1440)x576i", "50Hz", "16:9", "64:45"],
  ["23", "720(1440)x288p", "50Hz", "4:3", "8:15"],
  ["24", "720(1440)x288p", "50Hz", "16:9", "32:45"],
  ["25", "2880x576i", "50Hz", "4:3", "2:15", "–", "20:15"],
  ["26", "2880x576i", "50Hz", "16:9", "16:45-160:45"],
  ["27", "2880x288p", "50Hz", "4:3", "1:15", "–", "10:15"],
  ["28", "2880x288p", "50Hz", "16:9", "8:45", "–", "80:45"],
  ["29", "1440x576p", "50Hz", "4:3", "8:15", "or", "16:15"],
  ["30", "1440x576p", "50Hz", "16:9", "32:45", "or", "64:45"],
  ["31", "1920x1080p", "50Hz", "16:9", "1:1"],
  ["32", "1920x1080p", "23.98Hz/24Hz", "16:9", "1:1"],
  ["33", "1920x1080p", "25Hz", "16:9", "1:1"],
  ["34", "1920x1080p", "29.97Hz/30Hz", "16:9", "1:1"],
  ["35", "2880x480p", "59.94Hz/60Hz", "4:3", "2:9,4:9,or", "8:9"],
  ["36", "2880x480p", "59.94Hz/60Hz", "16:9", "8:27,16:27,or", "32:27"],
  ["37", "2880x576p", "50Hz", "4:3", "4:15,8:15,or", "16:15"],
  ["38", "2880x576p", "50Hz", "16:9", "16:45,32:45,or", "64:45"],
  ["39", "1920x1080i", "50Hz", "16:9", "1:1"],
  ["40", "1920x1080i", "100Hz", "16:9", "1:1"],
  ["41", "1280x720p", "100Hz", "16:9", "1:1"],
  ["42", "720x576p", "100Hz", "4:3", "16:15"],
  ["43", "720x576p", "100Hz", "16:9", "64:45"],
  ["44", "720(1440)x576i", "100Hz", "4:3", "16:15"],
  ["45", "720(1440)x576i", "100Hz", "16:9", "64:45"],
  ["46", "1920x1080i", "119.88/120Hz", "16:9", "1:1"],
  ["47", "1280x720p", "119.88/120Hz", "16:9", "1:1"],
  ["48", "720x480p", "119.88/120Hz", "4:3", "8:9"],
  ["49", "720x480p", "119.88/120Hz", "16:9", "32:27"],
  ["50", "720(1440)x480i", "119.88/120Hz", "4:3", "8:9"],
  ["51", "720(1440)x480i", "119.88/120Hz", "16:9", "32:27"],
  ["52", "720x576p", "200Hz", "4:3", "16:15"],
  ["53", "720x576p", "200Hz", "16:9", "64:45"],
  ["54", "720(1440)x576i", "200Hz", "4:3", "16:15"],
  ["55", "720(1440)x576i", "200Hz", "16:9", "64:45"],
  ["56", "720x480p", "239.76/240Hz", "4:3", "8:9"],
  ["57", "720x480p", "239.76/240Hz", "16:9", "32:27"],
  ["58", "720(1440)x480i", "239.76/240Hz", "4:3", "8:9"],
  ["59", "720(1440)x480i", "239.76/240Hz", "16:9", "32:27"],
  ["60", "1280x720p", "23.98Hz/24Hz", "16:9", "1:1"],
  ["61", "1280x720p", "25Hz", "16:9", "1:1"],
  ["62", "1280x720p", "29.97Hz/30Hz", "16:9", "1:1"],
  ["63", "1920x1080p", "119.88/120Hz", "16:9", "1:1"],
  ["64", "1920x1080p", "100Hz", "16:9", "1:1"],
  ["65", "1280x720p", "23.98Hz/24Hz", "64:27", "4:3"],
  ["66", "1280x720p", "25Hz", "64:27", "4:3"],
  ["67", "1280x720p", "29.97Hz/30Hz", "64:27", "4:3"],
  ["68", "1280x720p", "50Hz", "64:27", "4:3"],
  ["69", "1280x720p", "59.94Hz/60Hz", "64:27", "4:3"],
  ["70", "1280x720p", "100Hz", "64:27", "4:3"],
  ["71", "1280x720p", "119.88/120Hz", "64:27", "4:3"],
  ["72", "1920x1080p", "23.98Hz/24Hz", "64:27", "4:3"],
  ["73", "1920x1080p", "25Hz", "64:27", "4:3"],
  ["74", "1920x1080p", "29.97Hz/30Hz", "64:27", "4:3"],
  ["75", "1920x1080p", "50Hz", "64:27", "4:3"],
  ["76", "1920x1080p", "59.94Hz/60Hz", "64:27", "4:3"],
  ["77", "1920x1080p", "100Hz", "64:27", "4:3"],
  ["78", "1920x1080p", "119.88/120Hz", "64:27", "4:3"],
  ["79", "1680x720p", "23.98Hz/24Hz", "64:27", "64:63"],
  ["80", "1680x720p", "25Hz", "64:27", "64:63"],
  ["81", "1680x720p", "29.97Hz/30Hz", "64:27", "64:63"],
  ["82", "1680x720p", "50Hz", "64:27", "64:63"],
  ["83", "1680x720p", "59.94Hz/60Hz", "64:27", "64:63"],
  ["84", "1680x720p", "100Hz", "64:27", "64:63"],
  ["85", "1680x720p", "119.88/120Hz", "64:27", "64:63"],
  ["86", "2560x1080p", "23.98Hz/24Hz", "64:27", "1:1"],
  ["87", "2560x1080p", "25Hz", "64:27", "1:1"],
  ["88", "2560x1080p", "29.97Hz/30Hz", "64:27", "1:1"],
  ["89", "2560x1080p", "50Hz", "64:27", "1:1"],
  ["90", "2560x1080p", "59.94Hz/60Hz", "64:27", "1:1"],
  ["91", "2560x1080p", "100Hz", "64:27", "1:1"],
  ["92", "2560x1080p", "119.88/120Hz", "64:27", "1:1"],
  ["93", "3840x2160p", "23.98Hz/24Hz", "16:9", "1:1"],
  ["94", "3840x2160p", "25Hz", "16:9", "1:1"],
  ["95", "3840x2160p", "29.97Hz/30Hz", "16:9", "1:1"],
  ["96", "3840x2160p", "50Hz", "16:9", "1:1"],
  ["97", "3840x2160p", "59.94Hz/60Hz", "16:9", "1:1"],
  ["98", "4096x2160p", "23.98Hz/24Hz", "256:135", "1:1"],
  ["99", "4096x2160p", "25Hz", "256:135", "1:1"],
  ["100", "4096x2160p", "29.97Hz/30Hz", "256:135", "1:1"],
  ["101", "4096x2160p", "50Hz", "256:135", "1:1"],
  ["102", "4096x2160p", "59.94Hz/60Hz", "256:135", "1:1"],
  ["103", "3840x2160p", "23.98Hz/24Hz", "64:27", "4:3"],
  ["104", "3840x2160p", "25Hz", "64:27", "4:3"],
  ["105", "3840x2160p", "29.97Hz/30Hz", "64:27", "4:3"],
  ["106", "3840x2160p", "50Hz", "64:27", "4:3"],
  ["107", "3840x2160p", "59.94Hz/60Hz", "64:27", "4:3"],
  ["108", "1280x720p", "47.95Hz/48Hz", "16:9", "1:1"],
  ["109", "1280x720p", "47.95Hz/48Hz", "64:27", "4:3"],
  ["110", "1680x720p", "47.95Hz/48Hz", "64:27", "64:63"],
  ["111", "1920x1080p", "47.95Hz/48Hz", "16:9", "1:1"],
  ["112", "1920x1080p", "47.95Hz/48Hz", "64:27", "4:3"],
  ["113", "2560x1080p", "47.95Hz/48Hz", "64:27", "1:1"],
  ["114", "3840x2160p", "47.95Hz/48Hz", "16:9", "1:1"],
  ["115", "4096x2160p", "47.95Hz/48Hz", "256:135", "1:1"],
  ["116", "3840x2160p", "47.95Hz/48Hz", "64:27", "4:3"],
  ["117", "3840x2160p", "100Hz", "16:9", "1:1"],
  ["118", "3840x2160p", "119.88/120Hz", "16:9", "1:1"],
  ["119", "3840x2160p", "100Hz", "64:27", "4:3"],
  ["120", "3840x2160p", "119.88/120Hz", "64:27", "4:3"],
  ["121", "5120x2160p", "23.98Hz/24Hz", "64:27", "1:1"],
  ["122", "5120x2160p", "25Hz", "64:27", "1:1"],
  ["123", "5120x2160p", "29.97Hz/30Hz", "64:27", "1:1"],
  ["124", "5120x2160p", "47.95Hz/48Hz", "64:27", "1:1"],
  ["125", "5120x2160p", "50Hz", "64:27", "1:1"],
  ["126", "5120x2160p", "59.94Hz/60Hz", "64:27", "1:1"],
  ["127", "5120x2160p", "100Hz", "64:27", "1:1"],
  ["128-192", "Forbidden"],
  ["193", "5120x2160p", "119.88/120Hz", "64:27", "1:1"],
  ["194", "7680x4320p", "23.98Hz/24Hz", "16:9", "1:1"],
  ["195", "7680x4320p", "25Hz", "16:9", "1:1"],
  ["196", "7680x4320p", "29.97Hz/30Hz", "16:9", "1:1"],
  ["197", "7680x4320p", "47.95Hz/48Hz", "16:9", "1:1"],
  ["198", "7680x4320p", "50Hz", "16:9", "1:1"],
  ["199", "7680x4320p", "59.94Hz/60Hz", "16:9", "1:1"],
  ["200", "7680x4320p", "100Hz", "16:9", "1:1"],
  ["201", "7680x4320p", "119.88/120Hz", "16:9", "1:1"],
  ["202", "7680x4320p", "23.98Hz/24Hz", "64:27", "4:3"],
  ["203", "7680x4320p", "25Hz", "64:27", "4:3"],
  ["204", "7680x4320p", "29.97Hz/30Hz", "64:27", "4:3"],
  ["205", "7680x4320p", "47.95Hz/48Hz", "64:27", "4:3"],
  ["206", "7680x4320p", "50Hz", "64:27", "4:3"],
  ["207", "7680x4320p", "59.94Hz/60Hz", "64:27", "4:3"],
  ["208", "7680x4320p", "100Hz", "64:27", "4:3"],
  ["209", "7680x4320p", "119.88/120Hz", "64:27", "4:3"],
  ["210", "10240x4320p", "23.98Hz/24Hz", "64:27", "1:1"],
  ["211", "10240x4320p", "25Hz", "64:27", "1:1"],
  ["212", "10240x4320p", "29.97Hz/30Hz", "64:27", "1:1"],
  ["213", "10240x4320p", "47.95Hz/48Hz", "64:27", "1:1"],
  ["214", "10240x4320p", "50Hz", "64:27", "1:1"],
  ["215", "10240x4320p", "59.94Hz/60Hz", "64:27", "1:1"],
  ["216", "10240x4320p", "100Hz", "64:27", "1:1"],
  ["217", "10240x4320p", "119.88/120Hz", "64:27", "1:1"],
  ["218", "4096x2160p", "100Hz", "256:135", "1:1"],
  ["219", "4096x2160p", "119.88/120Hz", "256:135", "1:1"],
  ["220-255", "Reserved", "for", "the", "Future"],
  ["0", "No", "Video", "Identification", "Code", "Available", "(Used", "with", "AVI", "InfoFrame", "only)"]
]
/-- The key/value pairs of the one INTERLACED block of `VESA_DMT_TABLE`
(the "1024 x 768 @ 43Hz (Interlaced)" detailed timing parameters), exactly
as the source's per-line `key = value` scrape produces them (comment
suffixes and trailing semicolons stripped). -/
def vesaInterlacedBlock : List (String × String) := [
  ("Timing Name", "1024 x 768 @ 43Hz (Interlaced)"),
  ("Hor Pixels", "1024"),
  ("Ver Pixels", "768"),
  ("Hor Frequency", "35.522"),
  ("Ver Frequency", "86.957"),
  ("Pixel Clock", "44.900"),
  ("Character Width", "8"),
  ("Scan Type", "INTERLACED"),
  ("Hor Sync Polarity", "POSITIVE"),
  ("Ver Sync Polarity", "POSITIVE"),
  ("Hor Total Time", "28.151"),
  ("Hor Addr Time", "22.806"),
  ("Hor Blank Start", "22.806"),
  ("Hor Blank Time", "5.345"),
  ("Hor Sync Start", "22.984"),
  ("// H Right Border", "0.000"),
  ("// H Front Porch", "0.178"),
  ("Hor Sync Time", "3.920"),
  ("// H Back Porch", "1.247"),
  ("// H Left Border", "0.000"),
  ("Ver Total Time", "23.000"),
  ("Ver Addr Time", "21.620"),
  ("Ver Blank Start", "21.620"),
  ("Ver Blank Time", "0.676"),
  ("Ver Sync Start", "21.620"),
  ("// V Bottom Border", "0.000"),
  ("// V Front Porch", "0.000"),
  ("Ver Sync Time", "0.113"),
  ("// V Back Porch", "0.563"),
  ("// V Top Border", "0.000")
]

/-- The interlaced block with its `Hor Addr Time` replaced by `2.806`
microseconds: a value about twenty pixel periods short of
`Hor Pixels * pix_usec`. -/
def vesaBadHorAddrBlock : List (String × String) :=
  vesaInterlacedBlock.map
    (fun kv => if kv.1 == "Hor Addr Time" then (kv.1, "2.806") else kv)

/-- Row-level version of the two Table-1 frequency assertions, `false` when
the scan-type token itself is bad (which is equally fatal). -/
def table1RowBounds (f : List String) : Bool :=
  match scanTypeVal (f.getD 3 "") with
  | some dv => table1FreqChecks f dv
  | none => false

/-- `true` when the pixel-clock field of a row times 1000 is an exact
integer, so that the source's `int(float(...) * 1e3)` truncation agrees
with rounding to the nearest integer. -/
def table1ClockExact (f : List String) : Bool :=
  let q := (parseDecimal (f.getD 10 "")).mul (Frac.ofInt 1000)
  (Frac.ofInt (fracTrunc q)).beq q && (fracTrunc q == fracRound q)

/-- Formalization of the spec's "single unambiguous `h:v` ratio": one colon
separating two non-empty digit strings (written from the spec's wording, to
be compared with the source's character test `pixChecked`). -/
def isSingleColonPair (cs : List Char) : Bool :=
  match splitOnChar (Char.ofNat 58) cs with
  | [a, b] => !a.isEmpty && !b.isEmpty && a.all Char.isDigit && b.all Char.isDigit
  | _ => false

/-- The record the Table-1 pass builds for VIC 4 (from the row
`4,69 1280 720 Prog 1650 370 750 30 45.000 60.0003 74.250`). -/
def mode4 : DisplayMode :=
  { size := (1280, 720), scan_size := (1650, 750), doubling := (0, 0),
    pixel_khz := 74250, nominal_hz := 60 }

/-- The record for VIC 6 after the Table-1 and Table-2 passes (rows
`6,7 1440 480 Int 1716 276 525 22.5 15.734 59.9403 27.000` and
`6,7 3 38 124 114 N 4 3 15 N 4 ...`). -/
def mode6AfterPass2 : DisplayMode :=
  { size := (1440, 480), scan_size := (1716, 525), sync_start := (1478, 488),
    sync_end := (1602, 494), sync_polarity := (-1, -1), doubling := (0, -1),
    pixel_khz := 27000, nominal_hz := 60 }

/-- The record for VIC 6 after its Table-3 row
`6 720(1440)x480i 59.94Hz/60Hz 4:3 8:9` applies the pixel-doubling
correction. -/
def mode6Final : DisplayMode :=
  { size := (720, 480), scan_size := (858, 525), sync_start := (739, 488),
    sync_end := (801, 494), sync_polarity := (-1, -1), doubling := (1, -1),
    aspect := (4, 3), pixel_khz := 13500, nominal_hz := 60 }

def table1RowFields (f : List String) (dv : Int) (m0 : DisplayMode) : Prop :=
  m0.size = (parseInt (f.getD 1 ""), parseInt (f.getD 2 "")) ∧
  m0.scan_size = (parseInt (f.getD 4 ""), parseInt (f.getD 6 "")) ∧
  m0.doubling = (0, dv) ∧
  m0.pixel_khz = fracTrunc ((parseDecimal (f.getD 10 "")).mul (Frac.ofInt 1000)) ∧
  m0.nominal_hz = fracRound (parseDecimal (f.getD 9 ""))

/-- The `DisplayMode` record and stray `sync_doubling` value produced for
the INTERLACED VESA DMT block. -/
def vesaInterlacedResult : DisplayMode × (Int × Int) :=
  ({ size := (1024, 768), scan_size := (1264, 817), sync_start := (1032, 768),
     sync_end := (1208, 772), sync_polarity := (1, 1), doubling := (0, 0),
     pixel_khz := 44900, nominal_hz := 87 }, (0, -1))

lemma option_isSome_ite (b : Bool) {α : Type} (x : α) :
    (if b = true then some x else none).isSome = b := by
  cases b <;> simp

lemma ensure_eq_some {b : Bool} {u : Unit} : ensure b = some u ↔ b = true := by
  cases b <;> simp [ensure]

lemma vicLookup_vicInsert_self (mm : VicMap) (k : Nat) (v : DisplayMode) :
    vicLookup (vicInsert mm k v) k = some v := by
  induction mm with
  | nil => simp [vicInsert, vicLookup]
  | cons p rest ih =>
    by_cases h : p.1 = k
    · simp [vicInsert, vicLookup, h]
    · simp [vicInsert, vicLookup, h, ih]

lemma vicLookup_vicInsert_ne (mm : VicMap) {k k2 : Nat} (v : DisplayMode)
    (h : k ≠ k2) : vicLookup (vicInsert mm k v) k2 = vicLookup mm k2 := by
  induction mm with
  | nil => simp [vicInsert, vicLookup, h]
  | cons p rest ih =>
    by_cases h2 : p.1 = k
    · simp [vicInsert, vicLookup, h2, h]
    · simp [vicInsert, vicLookup, h2, ih]

lemma splitOnChar_ne_nil (sep : Char) (cs : List Char) : splitOnChar sep cs ≠ [] := by
  cases cs with
  | nil => simp [splitOnChar]
  | cons c rest =>
    simp only [splitOnChar]
    split
    · simp
    · split <;> simp

lemma vicList_ne_nil (s : String) : vicList s ≠ [] := by
  simp only [vicList, ne_eq, List.map_eq_nil_iff]
  exact splitOnChar_ne_nil _ _

lemma foldlM_option_append {σ α : Type} (step : σ → α → Option σ)
    (l1 l2 : List α) (s : σ) :
    (l1 ++ l2).foldlM step s = (l1.foldlM step s).bind (fun s1 => l2.foldlM step s1) := by
  induction l1 generalizing s with
  | nil => simp
  | cons a l ih =>
    simp only [List.cons_append, List.foldlM_cons]
    cases step s a <;> simp [ih]

lemma foldlM_option_preserve {σ α : Type} (P : σ → Prop) (step : σ → α → Option σ)
    (hstep : ∀ s a s2, P s → step s a = some s2 → P s2) :
    ∀ (l : List α) (s s2 : σ), l.foldlM step s = some s2 → P s → P s2 := by
  intro l
  induction l with
  | nil =>
    intro s s2 h hp
    simp only [List.foldlM_nil] at h
    cases h
    exact hp
  | cons a rest ih =>
    intro s s2 h hp
    simp only [List.foldlM_cons] at h
    cases ha : step s a with
    | none => rw [ha] at h; cases h
    | some s1 =>
      rw [ha] at h
      exact ih s1 s2 h (hstep s a s1 hp ha)

lemma foldlM_option_fatal {σ α : Type} (P : σ → Prop) (step : σ → α → Option σ)
    (hstep : ∀ s a s2, P s → step s a = some s2 → P s2)
    (x : α) (hx : ∀ s, P s → step s x = none) :
    ∀ (pre post : List α) (s : σ), P s → (pre ++ x :: post).foldlM step s = none := by
  intro pre
  induction pre with
  | nil =>
    intro post s hp
    simp [List.foldlM_cons, hx s hp]
  | cons a rest ih =>
    intro post s hp
    simp only [List.cons_append, List.foldlM_cons]
    cases ha : step s a with
    | none => rfl
    | some s1 => simpa using ih post s1 (hstep s a s1 hp ha)

lemma table1Apply_some {m m2 : DisplayMode} {f : List String} {dv : Int}
    (hdv : scanTypeVal (f.getD 3 "") = some dv)
    (h : table1Apply m f = some m2) :
    m2 = table1Record m f dv ∧ table1BlankChecks f dv = true ∧
      table1FreqChecks f dv = true := by
  unfold table1Apply at h
  split at h
  · rw [hdv, Option.some_bind] at h
    split at h
    · rename_i hb
      cases h
      rw [Bool.and_eq_true] at hb
      exact ⟨rfl, hb.1, hb.2⟩
    · cases h
  · cases h

lemma table1Apply_none {m : DisplayMode} {f : List String} {dv : Int}
    (hdv : scanTypeVal (f.getD 3 "") = some dv)
    (hfail : table1FreqChecks f dv = false) :
    table1Apply m f = none := by
  unfold table1Apply
  split
  · rw [hdv, Option.some_bind, hfail, Bool.and_false]
    rfl
  · rfl

lemma table2Vic_missing {f : List String} {acc acc2 : VicMap} {k : Nat} {vic : Nat}
    (h : table2Vic f acc k = some acc2) (hm : vicLookup acc vic = none) :
    vicLookup acc2 vic = none := by
  unfold table2Vic at h
  simp only [Option.bind_eq_bind, Option.bind_eq_some, Option.pure_def,
    Option.some.injEq] at h
  obtain ⟨m, hk, r, _, hins⟩ := h
  subst hins
  have hne : k ≠ vic := by
    intro he
    rw [he, hm] at hk
    cases hk
  rw [vicLookup_vicInsert_ne _ _ hne]
  exact hm

lemma table2Vic_fatal {f : List String} {acc : VicMap} {vic : Nat}
    (hm : vicLookup acc vic = none) : table2Vic f acc vic = none := by
  unfold table2Vic
  rw [hm]
  rfl

lemma table1Record_rowFields (m : DisplayMode) (f : List String) (dv : Int) :
    table1RowFields f dv (table1Record m f dv) := by
  refine ⟨rfl, rfl, rfl, rfl, rfl⟩

lemma table1Vic_rowFields_preserved {f : List String} {dv : Int} {vic : Nat}
    (hdv : scanTypeVal (f.getD 3 "") = some dv) (s : VicMap) (a : Nat) (s2 : VicMap)
    (hp : ∃ m0, vicLookup s vic = some m0 ∧ table1RowFields f dv m0)
    (hs : table1Vic f s a = some s2) :
    ∃ m0, vicLookup s2 vic = some m0 ∧ table1RowFields f dv m0 := by
  obtain ⟨m0, hl, hfields⟩ := hp
  unfold table1Vic at hs
  rw [Option.map_eq_some'] at hs
  obtain ⟨r, hr, hs2⟩ := hs
  subst hs2
  by_cases ha : a = vic
  · subst ha
    refine ⟨r, vicLookup_vicInsert_self _ _ _, ?_⟩
    obtain ⟨hrec, -, -⟩ := table1Apply_some hdv hr
    subst hrec
    exact table1Record_rowFields _ _ _
  · rw [vicLookup_vicInsert_ne _ _ ha]
    exact ⟨m0, hl, hfields⟩

lemma table1Line_none_of_apply {f : List String}
    (happly : ∀ m2 : DisplayMode, table1Apply m2 f = none) (s : VicMap) :
    table1Line s f = none := by
  unfold table1Line
  cases hf0 : f[0]? with
  | none => rfl
  | some f0 =>
    rw [Option.some_bind]
    obtain ⟨v, vs, hcons⟩ := List.exists_cons_of_ne_nil (vicList_ne_nil f0)
    rw [hcons, List.foldlM_cons]
    simp [table1Vic, happly]

lemma table2Line_missing_preserved {vic : Nat} (s : VicMap) (a : List String)
    (s2 : VicMap) (hp : vicLookup s vic = none) (hl : table2Line s a = some s2) :
    vicLookup s2 vic = none := by
  unfold table2Line at hl
  cases ha : a[0]? with
  | none => rw [ha, Option.none_bind] at hl; cases hl
  | some a0 =>
    rw [ha, Option.some_bind] at hl
    exact foldlM_option_preserve (fun acc => vicLookup acc vic = none) (table2Vic a)
      (fun s b s2 hp2 hs => table2Vic_missing hs hp2) _ s s2 hl hp

lemma table2Line_missing_fatal {f : List String} {f0 : String} {vic : Nat}
    (hf0 : f[0]? = some f0) (hvic : vic ∈ vicList f0) (s : VicMap)
    (hnone : vicLookup s vic = none) : table2Line s f = none := by
  unfold table2Line
  rw [hf0, Option.some_bind]
  obtain ⟨pre, post, heq⟩ := List.append_of_mem hvic
  rw [heq]
  exact foldlM_option_fatal (fun acc => vicLookup acc vic = none) (table2Vic f)
    (fun s2 b s3 hp hs => table2Vic_missing hs hp) vic
    (fun s2 hp => table2Vic_fatal hp) pre post s hnone

lemma table3Line_missing_fatal {f : List String} {f0 f1 : String}
    (hf0 : f[0]? = some f0) (hf1 : f[1]? = some f1)
    (hskip : table3SkipName f1 = false) (s : VicMap)
    (hnone : vicLookup s (digitsToNat f0.data) = none) :
    table3Line s f = none := by
  unfold table3Line
  rw [hf1, Option.some_bind, hskip]
  simp [hf0, hnone]

lemma table3DoubleStep_some {m m2 : DisplayMode} {nx nh nv : Int}
    (hne : nx ≠ nh) (h : table3DoubleStep m nx nh nv = some m2) :
    nx = nh * 2 ∧ m2 = table3Halve m nh nv := by
  unfold table3DoubleStep at h
  rw [if_pos (bne_iff_ne.mpr hne)] at h
  split at h
  · rename_i hx
    injection h with h
    exact ⟨beq_iff_eq.mp hx, h.symm⟩
  · cases h

/-- C1: the Table-1, Table-2 and Table-3 rows for VIC 4, processed by the
three passes in order, produce the record with `size = (1280, 720)`,
`scan_size = (1650, 750)`, `pixel_khz = 74250`, `nominal_hz = 60` and
`doubling = (0, 0)`. -/
theorem cta861_vic4_end_to_end :
    (cta861Pipeline
        [["4,69", "1280", "720", "Prog", "1650", "370", "750", "30", "45.000", "60.0003", "74.250"]]
        [["4,69", "2", "110", "40", "220", "P", "5", "5", "20", "P", "1", "CTA-770.3", "[31]", "1,2"]]
        [["4", "1280x720p", "59.94Hz/60Hz", "16:9", "1:1"]]).bind
      (fun mm => vicLookup mm 4) =
    some
      { size := (1280, 720), scan_size := (1650, 750), sync_start := (1390, 725),
        sync_end := (1430, 730), sync_polarity := (1, 1), doubling := (0, 0),
        aspect := (16, 9), pixel_khz := 74250, nominal_hz := 60 } := by decide

/-- C2: a Table-3 row whose name carries a parenthesized alternate width is
accepted only when the alternate width is exactly twice the un-doubled
width, in which case `size` becomes the un-doubled width, `doubling.h` is
set to `1`, and `pixel_khz`, `scan_size.h`, `sync_start.h`, `sync_end.h`
are halved; in particular VICs 6 and 7 (name `720(1440)x480i`) end with
`size = (720, 480)`, `doubling = (1, -1)` and `pixel_khz = 13500`, half of
the raw Table-1 clock. -/
theorem table3_pixel_doubling :
    (∀ (m m2 : DisplayMode) (f : List String) (name : String) (nx nh nv : Int),
      f[1]? = some name →
      name.data.contains (Char.ofNat 40) = true →
      parseName name = some (nx, nh, nv) →
      nh ≠ nx →
      table3Apply m f = some m2 →
      nx = nh * 2 ∧
      m2.size = (nh, nv) ∧
      m2.doubling = (1, m.doubling.2) ∧
      m2.pixel_khz = Int.fdiv m.pixel_khz 2 ∧
      m2.scan_size = (Int.fdiv m.scan_size.1 2, m.scan_size.2) ∧
      m2.sync_start = (Int.fdiv m.sync_start.1 2, m.sync_start.2) ∧
      m2.sync_end = (Int.fdiv m.sync_end.1 2, m.sync_end.2)) ∧
    (cta861Pipeline
        [["6,7", "1440", "480", "Int", "1716", "276", "525", "22.5", "15.734", "59.9403", "27.000"]]
        [["6,7", "3", "38", "124", "114", "N", "4", "3", "15", "N", "4", "CTA-770.2", "[30]", "2,15"]]
        [["6", "720(1440)x480i", "59.94Hz/60Hz", "4:3", "8:9"],
         ["7", "720(1440)x480i", "59.94Hz/60Hz", "16:9", "32:27"]]).map
      (fun mm => (vicLookup mm 6, vicLookup mm 7)) =
    some (some mode6Final,
          some { mode6Final with aspect := (16, 9) }) := by
  constructor
  · intro m m2 f name nx nh nv hf1 hpar hpn hne h
    simp only [table3Apply, Option.bind_eq_bind, Option.bind_eq_some, Option.pure_def,
      Option.some.injEq] at h
    obtain ⟨f3, hf3, asp, hasp, name2, hname2, lastc, hlast, u1, hu1, trip, htrip,
      u2, hu2, m2a, hm2a, h⟩ := h
    rw [hf1] at hname2
    injection hname2 with hname2
    subst hname2
    rw [hpn] at htrip
    injection htrip with htrip
    subst htrip
    obtain ⟨hx2, hm2a⟩ := table3DoubleStep_some (Ne.symm hne) hm2a
    subst hm2a
    have hm2 : m2 = table3Halve { m with aspect := asp } nh nv := by
      cases hpc : pixChecked f with
      | true =>
        rw [if_pos hpc] at h
        simp only [Option.bind_eq_some, Option.pure_def, Option.some.injEq] at h
        obtain ⟨pr, hpr, u4, hu4, h⟩ := h
        exact h.symm
      | false =>
        rw [if_neg (by rw [hpc]; exact Bool.false_ne_true)] at h
        injection h with h
        exact h.symm
    subst hm2
    exact ⟨hx2, rfl, rfl, rfl, rfl, rfl, rfl⟩
  · decide

/-- Witness for the universally quantified part of `table3_pixel_doubling`,
instantiated at the actual VIC-6 Table-3 row and the VIC-6 record produced
by the first two passes. -/
theorem table3_pixel_doubling_witness :
    (1440 : Int) = 720 * 2 ∧
    mode6Final.size = (720, 480) ∧
    mode6Final.doubling = (1, mode6AfterPass2.doubling.2) ∧
    mode6Final.pixel_khz = Int.fdiv mode6AfterPass2.pixel_khz 2 ∧
    mode6Final.scan_size = (Int.fdiv mode6AfterPass2.scan_size.1 2, mode6AfterPass2.scan_size.2) ∧
    mode6Final.sync_start = (Int.fdiv mode6AfterPass2.sync_start.1 2, mode6AfterPass2.sync_start.2) ∧
    mode6Final.sync_end = (Int.fdiv mode6AfterPass2.sync_end.1 2, mode6AfterPass2.sync_end.2) :=
  table3_pixel_doubling.1 mode6AfterPass2 mode6Final
    ["6", "720(1440)x480i", "59.94Hz/60Hz", "4:3", "8:9"] "720(1440)x480i"
    1440 720 480 rfl (by decide) (by decide) (by decide) (by decide)

/-- C3: the source parses `Scan Type` but assigns the result to a fresh
`sync_doubling` attribute instead of the dataclass field `doubling`, so for
the one INTERLACED block of the VESA DMT table the record's `doubling` —
the field the emitter prints — stays `(0, 0)` instead of the claimed
`(0, -1)`, while `(0, -1)` is parked in the unused attribute.  The third
conjunct shows `doubling` is `(0, 0)` for every successfully parsed
block. -/
theorem vesa_scan_type_doubling_bug :
    (vesaApply vesaInterlacedBlock).map (fun r => (r.1.doubling, r.2)) =
      some ((0, 0), (0, -1)) ∧
    kvLookup vesaInterlacedBlock "Scan Type" = some "INTERLACED" ∧
    (∀ (v : List (String × String)) (r : DisplayMode × (Int × Int)),
      vesaApply v = some r → r.1.doubling = (0, 0)) := by
  refine ⟨by decide, by decide, ?_⟩
  intro v r h
  simp only [vesaApply, Option.bind_eq_bind, Option.bind_eq_some] at h
  obtain ⟨vals, -, h⟩ := h
  split at h
  · simp only [Option.bind_eq_some, Option.pure_def, Option.some.injEq] at h
    obtain ⟨p1, -, p2, -, sd, -, u1, -, u2, -, u3, -, u4, -, h⟩ := h
    subst h
    rfl
  · cases h

/-- Witness for the universally quantified conjunct of
`vesa_scan_type_doubling_bug`, at the actual interlaced block. -/
theorem vesa_scan_type_doubling_bug_witness :
    vesaInterlacedResult.1.doubling = (0, 0) :=
  vesa_scan_type_doubling_bug.2.2 vesaInterlacedBlock vesaInterlacedResult (by decide)

/-- C4: the two VESA `Addr Time` assertions place `abs` around the boolean
comparison (`abs(a - b < 1)`), so they test the signed difference only: a
block whose `Hor Addr Time` (2.806 usec) is about twenty pixel periods
shorter than `Hor Pixels * pix_usec` (22.806 usec) — an absolute error far
beyond one unit — is accepted, contradicting the claim that validation
fails whenever the absolute difference is one unit or more. -/
theorem vesa_addr_time_signed_bug :
    (vesaApply vesaBadHorAddrBlock).isSome = true ∧
    (Frac.ofInt 1).ble
        (((parseDecimal "2.806").sub
            ((Frac.ofInt 1024).mul
              ((Frac.ofInt 1000).div (Frac.ofInt 44900)))).abs) = true ∧
    kvLookup vesaBadHorAddrBlock "Hor Addr Time" = some "2.806" ∧
    kvLookup vesaBadHorAddrBlock "Hor Pixels" = some "1024" ∧
    kvLookup vesaBadHorAddrBlock "Pixel Clock" = some "44.900" := by
  refine ⟨by decide, by decide, by decide, by decide, by decide⟩

/-- C5 (counterexample): a Table-2 row body whose vertical back porch
overshoots by one line (`scan_size.v - (sync_end.v + bp) = -1`, absolute
value 1 ≤ 2) satisfies the claimed acceptance condition — exact horizontal
equality and absolute vertical difference at most 2 — yet the source's
one-sided check `0 <= diff <= 2` rejects it.  The record is the VIC-4
record built by the Table-1 pass (first conjunct). -/
theorem table2_back_porch_abs_counterexample :
    (cta861Pass1 ctaTable1Rows).map (fun mm => vicLookup mm 4) =
      some (some mode4) ∧
    table2Apply mode4 ["4", "2", "110", "40", "220", "P", "5", "5", "21", "P"] = none ∧
    (table2VDiff (table2Record mode4 ["4", "2", "110", "40", "220", "P", "5", "5", "21", "P"] 1 1)
        ["4", "2", "110", "40", "220", "P", "5", "5", "21", "P"]).natAbs ≤ 2 ∧
    (table2Record mode4 ["4", "2", "110", "40", "220", "P", "5", "5", "21", "P"] 1 1).scan_size.1 =
      (table2Record mode4 ["4", "2", "110", "40", "220", "P", "5", "5", "21", "P"] 1 1).sync_end.1 +
        parseInt (["4", "2", "110", "40", "220", "P", "5", "5", "21", "P"].getD 4 "") := by
  refine ⟨by decide, by decide, by decide, by decide⟩

/-- C5 (amended): a Table-2 row body with enough fields and valid polarity
tokens is accepted exactly when the horizontal back-porch equality is exact
and the vertical difference `scan_size.v - (sync_end.v + bp * i_double)`
lies in the interval [0, 2]; negative differences of absolute value ≤ 2 are
rejected (the source's vertical check is one-sided). -/
theorem table2_back_porch_range (m : DisplayMode) (f : List String) (p5 p9 : Int)
    (hlen : 10 ≤ f.length)
    (hp5 : polarityVal (f.getD 5 "") = some p5)
    (hp9 : polarityVal (f.getD 9 "") = some p9) :
    (table2Apply m f).isSome = true ↔
      ((table2Record m f p5 p9).scan_size.1 =
          (table2Record m f p5 p9).sync_end.1 + parseInt (f.getD 4 "") ∧
        0 ≤ table2VDiff (table2Record m f p5 p9) f ∧
        table2VDiff (table2Record m f p5 p9) f ≤ 2) := by
  unfold table2Apply
  rw [if_pos hlen, hp5, Option.some_bind, hp9, Option.some_bind]
  simp only [option_isSome_ite, Bool.and_eq_true, beq_iff_eq, decide_eq_true_eq]
  split
  · rename_i hc
    simp only [Option.isSome_some, true_iff]
    exact hc
  · rename_i hc
    simp only [Option.isSome_none, Bool.false_eq_true, false_iff]
    exact hc

/-- Witness for `table2_back_porch_range`: the actual Table-2 row for
VICs 4 and 69, against the VIC-4 record from the Table-1 pass, is
accepted. -/
theorem table2_back_porch_range_witness :
    (table2Apply mode4
        ["4,69", "2", "110", "40", "220", "P", "5", "5", "20", "P", "1", "CTA-770.3", "[31]", "1,2"]).isSome = true :=
  (table2_back_porch_range mode4
      ["4,69", "2", "110", "40", "220", "P", "5", "5", "20", "P", "1", "CTA-770.3", "[31]", "1,2"]
      1 1 (by decide) (by decide) (by decide)).mpr (by decide)

/-- C6: a VIC referenced by a Table-2 or Table-3 row without a Table-1
record is fatal: the row aborts its pass (a `KeyError` from
`cta_vic_mode[vic]`), a pass containing such a row aborts wherever it
occurs (Table-2 lines never add new keys), and an aborted pass makes the
whole pipeline produce nothing — there is no partial output. -/
theorem missing_vic_fatal :
    (∀ (mm : VicMap) (f : List String) (f0 : String) (vic : Nat),
      f[0]? = some f0 → vic ∈ vicList f0 → vicLookup mm vic = none →
      table2Line mm f = none) ∧
    (∀ (mm : VicMap) (f : List String) (f0 f1 : String),
      f[0]? = some f0 → f[1]? = some f1 → table3SkipName f1 = false →
      vicLookup mm (digitsToNat f0.data) = none →
      table3Line mm f = none) ∧
    (∀ (mm : VicMap) (pre post : List (List String)) (f : List String)
        (f0 : String) (vic : Nat),
      f[0]? = some f0 → vic ∈ vicList f0 → vicLookup mm vic = none →
      cta861Pass2 mm (pre ++ f :: post) = none) ∧
    (∀ (t1 t2 t3 : List (List String)) (m1 : VicMap),
      cta861Pass1 t1 = some m1 → cta861Pass2 m1 t2 = none →
      cta861Pipeline t1 t2 t3 = none) := by
  refine ⟨?_, ?_, ?_, ?_⟩
  · intro mm f f0 vic hf0 hvic hnone
    exact table2Line_missing_fatal hf0 hvic mm hnone
  · intro mm f f0 f1 hf0 hf1 hskip hnone
    exact table3Line_missing_fatal hf0 hf1 hskip mm hnone
  · intro mm pre post f f0 vic hf0 hvic hnone
    unfold cta861Pass2
    exact foldlM_option_fatal (fun acc => vicLookup acc vic = none) table2Line
      (fun s a s2 hp hl => table2Line_missing_preserved s a s2 hp hl)
      f (fun s hp => table2Line_missing_fatal hf0 hvic s hp) pre post mm hnone
  · intro t1 t2 t3 m1 h1 h2
    simp only [cta861Pipeline, Option.bind_eq_bind, h1, Option.some_bind, h2,
      Option.none_bind]

/-- Witness for `missing_vic_fatal`: the actual Table-2 row for VIC 20
against an empty record map aborts. -/
theorem missing_vic_fatal_witness :
    table2Line [] ["20", "4", "528", "44", "148", "P", "2", "5", "15", "P", "1", "SMPTE", "274M", "[2]", "1,2"] = none :=
  missing_vic_fatal.1 [] _ "20" 20 rfl (by decide) rfl

/-- C7: every row of the embedded Table 1 passes the two frequency
assertions (derived horizontal frequency within 1e-3 of the published
field, derived vertical frequency within 1e-2 of the published field
divided by the interlace factor), so every emitted record satisfies them
for its row; a row failing either bound makes its processing `none`, and
one such row anywhere in the table aborts the whole Table-1 pass. -/
theorem table1_freq_bounds :
    (ctaTable1Rows.all table1RowBounds = true) ∧
    (∀ (m : DisplayMode) (f : List String) (dv : Int),
      scanTypeVal (f.getD 3 "") = some dv → table1FreqChecks f dv = false →
      table1Apply m f = none) ∧
    (∀ (pre post : List (List String)) (f : List String),
      (∀ m2 : DisplayMode, table1Apply m2 f = none) →
      cta861Pass1 (pre ++ f :: post) = none) := by
  refine ⟨by decide, ?_, ?_⟩
  · intro m f dv hdv hfail
    exact table1Apply_none hdv hfail
  · intro pre post f happly
    unfold cta861Pass1
    exact foldlM_option_fatal (fun _ => True) table1Line (fun _ _ _ _ _ => trivial)
      f (fun s _ => table1Line_none_of_apply happly s) pre post [] trivial

/-- Witness for `table1_freq_bounds`: the VIC-4 row with its horizontal
frequency field corrupted to `45.100` kHz (off by 0.1 ≥ 1e-3) aborts. -/
theorem table1_freq_bounds_witness :
    table1Apply {}
      ["4,69", "1280", "720", "Prog", "1650", "370", "750", "30", "45.100", "60.0003", "74.250"] = none :=
  table1_freq_bounds.2.1 {}
    ["4,69", "1280", "720", "Prog", "1650", "370", "750", "30", "45.100", "60.0003", "74.250"]
    0 (by decide) (by decide)

/-- C9: for every Table-1 row, a record built from it has
`pixel_khz = round(clock * 1000)` and `nominal_hz = round(v_freq)`: the
source truncates `float * 1e3` with `int()`, but on every row of the table
the product is an exact integer (second conjunct), so truncation and
rounding agree; in particular `59.9403` rounds to 60 and `74.250` MHz gives
74250 kHz. -/
theorem table1_pixel_nominal :
    (∀ f ∈ ctaTable1Rows, ∀ (m m2 : DisplayMode),
      table1Apply m f = some m2 →
      m2.pixel_khz = fracRound ((parseDecimal (f.getD 10 "")).mul (Frac.ofInt 1000)) ∧
      m2.nominal_hz = fracRound (parseDecimal (f.getD 9 ""))) ∧
    (ctaTable1Rows.all table1ClockExact = true) ∧
    fracRound (parseDecimal "59.9403") = 60 ∧
    fracTrunc ((parseDecimal "74.250").mul (Frac.ofInt 1000)) = 74250 := by
  have hall : ctaTable1Rows.all table1ClockExact = true := by decide
  refine ⟨?_, hall, by decide, by decide⟩
  intro f hf m m2 h
  cases hdv : scanTypeVal (f.getD 3 "") with
  | none =>
    unfold table1Apply at h
    split at h
    · rw [hdv, Option.none_bind] at h
      cases h
    · cases h
  | some dv =>
    obtain ⟨hm2, -, -⟩ := table1Apply_some hdv h
    subst hm2
    have hex := List.all_eq_true.mp hall f hf
    simp only [table1ClockExact, Bool.and_eq_true] at hex
    exact ⟨beq_iff_eq.mp hex.2, rfl⟩

/-- Witness for `table1_pixel_nominal`: the VIC-4 row yields the VIC-4
record with `pixel_khz = round(74.250 * 1000)` and
`nominal_hz = round(60.0003)`. -/
theorem table1_pixel_nominal_witness :
    mode4.pixel_khz = fracRound ((parseDecimal "74.250").mul (Frac.ofInt 1000)) ∧
    mode4.nominal_hz = fracRound (parseDecimal "60.0003") :=
  table1_pixel_nominal.1
    ["4,69", "1280", "720", "Prog", "1650", "370", "750", "30", "45.000", "60.0003", "74.250"]
    (by decide) {} mode4 (by decide)

set_option maxRecDepth 1000000 in
/-- C10: VICs listed on several Table-1 rows (8/9, 12/13, 23/24, 27/28)
keep one record each, carrying the values of the last row in table order
(total height 263 resp. 314, nominal frequency 60 resp. 50 from the third
variant rows); in general, after a Table-1 line is processed every VIC on
it holds exactly that line's parsed field values, so later duplicate rows
overwrite earlier ones; and a row whose own assertions fail aborts the line
regardless of any record state. -/
theorem table1_duplicate_last_wins :
    ((cta861Pass1 ctaTable1Rows).bind (fun mm => vicLookup mm 23) =
      some { size := (1440, 288), scan_size := (1728, 314), doubling := (0, 0),
             pixel_khz := 27000, nominal_hz := 50 }) ∧
    ((cta861Pass1 ctaTable1Rows).bind (fun mm => vicLookup mm 24) =
      some { size := (1440, 288), scan_size := (1728, 314), doubling := (0, 0),
             pixel_khz := 27000, nominal_hz := 50 }) ∧
    ((cta861Pass1 ctaTable1Rows).bind (fun mm => vicLookup mm 27) =
      some { size := (2880, 288), scan_size := (3456, 314), doubling := (0, 0),
             pixel_khz := 54000, nominal_hz := 50 }) ∧
    ((cta861Pass1 ctaTable1Rows).bind (fun mm => vicLookup mm 28) =
      some { size := (2880, 288), scan_size := (3456, 314), doubling := (0, 0),
             pixel_khz := 54000, nominal_hz := 50 }) ∧
    ((cta861Pass1 ctaTable1Rows).bind (fun mm => vicLookup mm 8) =
      some { size := (1440, 240), scan_size := (1716, 263), doubling := (0, 0),
             pixel_khz := 27000, nominal_hz := 60 }) ∧
    ((cta861Pass1 ctaTable1Rows).bind (fun mm => vicLookup mm 9) =
      some { size := (1440, 240), scan_size := (1716, 263), doubling := (0, 0),
             pixel_khz := 27000, nominal_hz := 60 }) ∧
    ((cta861Pass1 ctaTable1Rows).bind (fun mm => vicLookup mm 12) =
      some { size := (2880, 240), scan_size := (3432, 263), doubling := (0, 0),
             pixel_khz := 54000, nominal_hz := 60 }) ∧
    ((cta861Pass1 ctaTable1Rows).bind (fun mm => vicLookup mm 13) =
      some { size := (2880, 240), scan_size := (3432, 263), doubling := (0, 0),
             pixel_khz := 54000, nominal_hz := 60 }) ∧
    (∀ (mm mm2 : VicMap) (f : List String) (f0 : String) (vic : Nat) (dv : Int),
      f[0]? = some f0 → vic ∈ vicList f0 → scanTypeVal (f.getD 3 "") = some dv →
      table1Line mm f = some mm2 →
      ∃ m0, vicLookup mm2 vic = some m0 ∧ table1RowFields f dv m0) ∧
    (∀ (mm : VicMap) (f : List String),
      (∀ m2 : DisplayMode, table1Apply m2 f = none) → table1Line mm f = none) := by
  refine ⟨by decide, by decide, by decide, by decide, by decide, by decide, by decide,
    by decide, ?_, ?_⟩
  · intro mm mm2 f f0 vic dv hf0 hvic hdv h
    unfold table1Line at h
    rw [hf0, Option.some_bind] at h
    obtain ⟨pre, post, heq⟩ := List.append_of_mem hvic
    rw [heq, foldlM_option_append, Option.bind_eq_some] at h
    obtain ⟨s1, h1, h2⟩ := h
    rw [List.foldlM_cons] at h2
    simp only [Option.bind_eq_bind, Option.bind_eq_some] at h2
    obtain ⟨s2, hstep, h3⟩ := h2
    have hp : ∃ m0, vicLookup s2 vic = some m0 ∧ table1RowFields f dv m0 := by
      unfold table1Vic at hstep
      rw [Option.map_eq_some'] at hstep
      obtain ⟨r, hr, hs2⟩ := hstep
      subst hs2
      obtain ⟨hrec, -, -⟩ := table1Apply_some hdv hr
      subst hrec
      exact ⟨_, vicLookup_vicInsert_self _ _ _, table1Record_rowFields _ _ _⟩
    exact foldlM_option_preserve _ (table1Vic f)
      (fun s a s2 hp2 hs => table1Vic_rowFields_preserved hdv s a s2 hp2 hs)
      post s2 mm2 h3 hp
  · intro mm f happly
    exact table1Line_none_of_apply happly mm

/-- Witness for `table1_duplicate_last_wins`: processing the first
`23,24` row on an empty map leaves the record for VIC 23 holding exactly
that row's values. -/
theorem table1_duplicate_last_wins_witness :
    ∃ m0, vicLookup
        [(23, { size := (1440, 288), scan_size := (1728, 312), doubling := (0, 0),
                pixel_khz := 27000, nominal_hz := 50 }),
         (24, { size := (1440, 288), scan_size := (1728, 312), doubling := (0, 0),
                pixel_khz := 27000, nominal_hz := 50 })] 23 = some m0 ∧
      table1RowFields
        ["23,24", "1440", "288", "Prog", "1728", "288", "312", "24", "15.625", "50.080", "27.000"]
        0 m0 :=
  table1_duplicate_last_wins.2.2.2.2.2.2.2.2.1 []
    _ ["23,24", "1440", "288", "Prog", "1728", "288", "312", "24", "15.625", "50.080", "27.000"]
    "23,24" 23 0 rfl (by decide) (by decide) (by decide)

set_option maxRecDepth 1000000 in
/-- C8: on every Table-3 row the pixel-aspect cross-check runs exactly when
the (re-joined) pixel-aspect field is a single unambiguous `digits:digits`
ratio — multi-valued or ranged fields never enable the character gate — and
the full three-pass generation over the embedded tables succeeds, so no
such field ever causes a failure. -/
theorem table3_aspect_gating :
    (ctaTable3Rows.all (fun f =>
        table3SkipName (f.getD 1 "") ||
        (pixChecked f == isSingleColonPair (pixField f))) = true) ∧
    (cta861Pipeline ctaTable1Rows ctaTable2Rows ctaTable3Rows).isSome = true := by
  exact ⟨by decide, by decide⟩
